import Mathlib

/-!
Verification development for the Solidgen FMDT extractor repository.

The repository walks the FeatureManager design tree of a SolidWorks session via COM
and emits a serializable document.  The Python sources are embedded shallowly:

* COM attribute access is modelled by the type Member: an attribute can be
  absent (a direct access or a hasattr probe raises AttributeError, while a
  getattr call with a default returns the default), can raise a hard,
  non-AttributeError exception when touched (Member.err), or can yield a value.
* Fallible calls are modelled with Except Unit; the pervasive try/except blocks
  of the sources become matches on those results.
* Python values flowing into the emitted document are modelled by PyVal,
  including an objRef constructor for native object references that are not
  JSON-serializable, so that json.dump with default=str can be modelled.

Each definition is translated from the named function of the sources
(FMDT_v3.py, FMDT_v4.py, FMDT_v5.py, FMDT_lite.py).
-/

/-- Model of a Python value as it appears in the extracted document.
numbers are carried as rationals, objRef models a native (COM) object
reference whose str() form is the stored string. -/
inductive PyVal where
  | none
  | bool (b : Bool)
  | num (q : Rat)
  | str (s : String)
  | list (xs : List PyVal)
  | dict (kvs : List (String × PyVal))
  | objRef (r : String)

/-- Python test x is None, used by the dict comprehensions that filter
unavailable attributes. -/
def isNoneV : PyVal → Bool
  | PyVal.none => true
  | _ => false

/-- Python truthiness of a value. -/
def truthyV : PyVal → Bool
  | PyVal.none => false
  | PyVal.bool b => b
  | PyVal.num q => decide (q ≠ 0)
  | PyVal.str s => decide (s ≠ "")
  | PyVal.list xs => !xs.isEmpty
  | PyVal.dict kvs => !kvs.isEmpty
  | PyVal.objRef _ => true

/-- Result of looking up one member on a duck-typed COM object: the member can
be missing (AttributeError on direct access), can raise a hard exception when
evaluated, or can produce a value. -/
inductive Member (α : Type) where
  | absent
  | err
  | val (a : α)

/-- Python getattr(obj, name, default): an absent member yields the default,
a hard failure propagates, a present member yields its value. -/
def getattrD {α : Type} : Member α → α → Except Unit α
  | Member.absent, d => Except.ok d
  | Member.err, _ => Except.error ()
  | Member.val a, _ => Except.ok a

/-- Direct attribute access obj.name: absent members raise AttributeError. -/
def getDirect {α : Type} : Member α → Except Unit α
  | Member.absent => Except.error ()
  | Member.err => Except.error ()
  | Member.val a => Except.ok a

/-- Whether a member evaluates without raising any exception at all. -/
def notErr {α : Type} : Member α → Bool
  | Member.err => false
  | _ => true

/-- Whether an Except-modelled call returned normally. -/
def exOk {α : Type} : Except Unit α → Bool
  | Except.ok _ => true
  | Except.error _ => false

/-- The string payload of a successful call, with empty-string default. -/
def okStr : Except Unit String → String
  | Except.ok s => s
  | Except.error _ => ""

/-! ## JSON emission (save_to_json of FMDT_v4.py, _export_to_json of FMDT_v3.py)

Both emitters call json.dump(data, f, ..., default=str).  The serializer below
models json.dump: native JSON values serialize structurally, while a value with
no JSON representation (PyVal.objRef) is passed to the default hook.  With no
hook the dump fails; with the default=str hook of the sources the object is
coerced to its string representation and emitted as a JSON string. -/

/-- Quote a string as a JSON string token (escaping is irrelevant to the
success/failure behaviour being modelled). -/
def jsonQuote (s : String) : String := "\"" ++ s ++ "\""

/-- Comma-join serialized items. -/
def joinComma : List String → String
  | [] => ""
  | [s] => s
  | s :: rest => s ++ ", " ++ joinComma rest

mutual
/-- json.dump on one value, with d the default hook applied to
non-serializable objects; Option.none models raising TypeError. -/
def serV (d : String → Option String) : PyVal → Option String
  | PyVal.none => some "null"
  | PyVal.bool b => some (if b then "true" else "false")
  | PyVal.num q => some (toString q)
  | PyVal.str s => some (jsonQuote s)
  | PyVal.objRef r =>
    match d r with
    | some s => some (jsonQuote s)
    | Option.none => Option.none
  | PyVal.list xs =>
    match serL d xs with
    | some parts => some ("[" ++ joinComma parts ++ "]")
    | Option.none => Option.none
  | PyVal.dict kvs =>
    match serD d kvs with
    | some parts => some ("\x7b" ++ joinComma parts ++ "\x7d")
    | Option.none => Option.none

/-- Serialize the items of a JSON array. -/
def serL (d : String → Option String) : List PyVal → Option (List String)
  | [] => some []
  | v :: vs =>
    match serV d v with
    | Option.none => Option.none
    | some s =>
      match serL d vs with
      | Option.none => Option.none
      | some ss => some (s :: ss)

/-- Serialize the entries of a JSON object. -/
def serD (d : String → Option String) : List (String × PyVal) → Option (List String)
  | [] => some []
  | (k, v) :: kvs =>
    match serV d v with
    | Option.none => Option.none
    | some s =>
      match serD d kvs with
      | Option.none => Option.none
      | some ss => some ((jsonQuote k ++ ": " ++ s) :: ss)
end

/-- The default=str hook of the sources: str() of a native object reference is
its repr string and never fails. -/
def pyStrD : String → Option String := fun r => some r

theorem serL_ok_of (d : String → Option String) (xs : List PyVal)
    (h : ∀ v ∈ xs, (serV d v).isSome = true) : (serL d xs).isSome = true := by
  induction xs with
  | nil => simp [serL]
  | cons v vs ih =>
    have hv := h v (List.mem_cons_self v vs)
    have hvs := ih (fun u hu => h u (List.mem_cons_of_mem v hu))
    rw [serL]
    cases hsv : serV d v with
    | none => rw [hsv] at hv; simp [Option.isSome] at hv
    | some s =>
      cases hsl : serL d vs with
      | none => rw [hsl] at hvs; simp [Option.isSome] at hvs
      | some ss => simp

theorem serD_ok_of (d : String → Option String) (kvs : List (String × PyVal))
    (h : ∀ kv ∈ kvs, (serV d kv.2).isSome = true) : (serD d kvs).isSome = true := by
  induction kvs with
  | nil => simp [serD]
  | cons kv kvs ih =>
    have hv := h kv (List.mem_cons_self kv kvs)
    have hvs := ih (fun u hu => h u (List.mem_cons_of_mem kv hu))
    obtain ⟨k, v⟩ := kv
    rw [serD]
    cases hsv : serV d v with
    | none => rw [hsv] at hv; simp [Option.isSome] at hv
    | some s =>
      cases hsl : serD d kvs with
      | none => rw [hsl] at hvs; simp [Option.isSome] at hvs
      | some ss => simp

theorem serV_ok_aux : ∀ (n : Nat) (v : PyVal), sizeOf v ≤ n →
    (serV pyStrD v).isSome = true := by
  intro n
  induction n with
  | zero =>
    intro v hv
    exfalso
    cases v <;> simp_arith at hv
  | succ n ih =>
    intro v hv
    cases v with
    | none => simp [serV]
    | bool b => simp [serV]
    | num q => simp [serV]
    | str s => simp [serV]
    | objRef r => simp [serV, pyStrD]
    | list xs =>
      have hxs : (serL pyStrD xs).isSome = true := by
        apply serL_ok_of
        intro u hu
        apply ih
        have h1 : sizeOf u < sizeOf xs := List.sizeOf_lt_of_mem hu
        have h2 : sizeOf (PyVal.list xs) = 1 + sizeOf xs := by simp
        omega
      rw [serV]
      cases hsl : serL pyStrD xs with
      | none => rw [hsl] at hxs; simp [Option.isSome] at hxs
      | some parts => simp
    | dict kvs =>
      have hkvs : (serD pyStrD kvs).isSome = true := by
        apply serD_ok_of
        intro kv hkv
        apply ih
        have h1 : sizeOf kv < sizeOf kvs := List.sizeOf_lt_of_mem hkv
        obtain ⟨k, v⟩ := kv
        have h0 : sizeOf ((k, v) : String × PyVal).2 = sizeOf v := rfl
        have h2 : sizeOf ((k, v) : String × PyVal) = 1 + sizeOf k + sizeOf v := by simp
        have h3 : sizeOf (PyVal.dict kvs) = 1 + sizeOf kvs := by simp
        omega
      rw [serV]
      cases hsl : serD pyStrD kvs with
      | none => rw [hsl] at hkvs; simp [Option.isSome] at hkvs
      | some parts => simp

/-- C6: JSON emission with the default=str hook of save_to_json (FMDT_v4.py)
and _export_to_json (FMDT_v3.py) succeeds on every document value, and a
non-serializable native object reference is coerced to its string
representation instead of failing the emission. -/
theorem c6_serialization :
    (∀ v : PyVal, (serV pyStrD v).isSome = true) ∧
    (∀ r : String, serV pyStrD (PyVal.objRef r) = some (jsonQuote r)) := by
  constructor
  · intro v
    exact serV_ok_aux (sizeOf v) v (Nat.le_refl _)
  · intro r
    simp [serV, pyStrD]

/-! ## Substring matching and the type classifiers

The sources decide per-feature behaviour by Python substring tests
(keyword in type_string).  hasSub embeds that test; pyLower embeds the
str.lower() call used by FMDT_v3.py (the vendor type names are ASCII). -/

/-- List-level test that pat occurs at the head of s. -/
def isPreC : List Char → List Char → Bool
  | [], _ => true
  | _ :: _, [] => false
  | p :: ps, c :: cs => p == c && isPreC ps cs

/-- List-level test that pat occurs somewhere in s (Python pat in s). -/
def containsC (pat : List Char) : List Char → Bool
  | [] => pat.isEmpty
  | c :: cs => isPreC pat (c :: cs) || containsC pat cs

/-- Python substring test: pat in s. -/
def hasSub (s pat : String) : Bool := containsC pat.data s.data

/-- ASCII lowering of one character, as str.lower() acts on the type names. -/
def lowerChar (c : Char) : Char :=
  if 65 ≤ c.toNat && c.toNat ≤ 90 then Char.ofNat (c.toNat + 32) else c

/-- Python str.lower() on the (ASCII) vendor type strings. -/
def pyLower (s : String) : String := ⟨s.data.map lowerChar⟩

theorem containsC_of_isPreC (q s : List Char) (h : isPreC q s = true) :
    containsC q s = true := by
  cases s with
  | nil =>
    cases q with
    | nil => simp [containsC]
    | cons a as => simp [isPreC] at h
  | cons c cs => simp [containsC, h]

theorem containsC_of_isPreC_append (p q s : List Char)
    (h : isPreC (p ++ q) s = true) : containsC q s = true := by
  induction p generalizing s with
  | nil => exact containsC_of_isPreC q s (by simpa using h)
  | cons a ps ih =>
    cases s with
    | nil => simp [isPreC] at h
    | cons c cs =>
      simp only [List.cons_append, isPreC, Bool.and_eq_true] at h
      have := ih cs h.2
      simp [containsC, this]

theorem containsC_append_right (p q s : List Char)
    (h : containsC (p ++ q) s = true) : containsC q s = true := by
  induction s with
  | nil =>
    simp only [containsC, List.isEmpty_eq_true, List.append_eq_nil] at h
    simp [containsC, h.2]
  | cons c cs ih =>
    simp only [containsC, Bool.or_eq_true] at h
    rcases h with h | h
    · exact containsC_of_isPreC_append p q (c :: cs) h
    · have := ih h
      cases hq : isPreC q (c :: cs) <;> simp [containsC, this]

/-- A type string containing refplane also contains plane. -/
theorem hasSub_plane_of_refplane (s : String)
    (h : hasSub s "refplane" = true) : hasSub s "plane" = true := by
  have hd : "refplane".data = "ref".data ++ "plane".data := by decide
  unfold hasSub at h ⊢
  rw [hd] at h
  exact containsC_append_right _ _ _ h

/-- The closed category set of the Type Classifier. -/
inductive Category where
  | sketch | extrude | cut | revolve | fillet | chamfer | hole | pattern
  | mirror | shell | draft | rib | loft | sweep | plane | axis | mate | generic
deriving DecidableEq, Repr

/-- The classification decision of _analyze_feature_by_type (FMDT_v3.py,
lines 214-276): the elif chain over feature.GetTypeName2().lower(). -/
def classifyV3 (t : String) : Category :=
  let ft := pyLower t
  if hasSub ft "sketch" || hasSub ft "profilefeature" then Category.sketch
  else if hasSub ft "extrude" || hasSub ft "boss" then Category.extrude
  else if hasSub ft "cut" then Category.cut
  else if hasSub ft "revolve" then Category.revolve
  else if hasSub ft "fillet" then Category.fillet
  else if hasSub ft "chamfer" then Category.chamfer
  else if hasSub ft "hole" then Category.hole
  else if hasSub ft "pattern" then Category.pattern
  else if hasSub ft "mirror" then Category.mirror
  else if hasSub ft "shell" then Category.shell
  else if hasSub ft "draft" then Category.draft
  else if hasSub ft "rib" then Category.rib
  else if hasSub ft "loft" then Category.loft
  else if hasSub ft "sweep" then Category.sweep
  else if hasSub ft "plane" || hasSub ft "refplane" then Category.plane
  else if hasSub ft "axis" then Category.axis
  else if hasSub ft "mate" then Category.mate
  else Category.generic

/-- Modelled from the spec: the classification contract claimed in section 4.1
(case-insensitive substring match, first match wins in the priority order
sketch, extrude/boss, cut, revolve, fillet, chamfer, hole, pattern, mirror,
shell, draft, rib, loft, sweep, plane, axis, mate, defaulting to generic),
written to be compared with the classifiers of the sources. -/
def classifySpecC3 (t : String) : Category :=
  let ft := pyLower t
  if hasSub ft "sketch" then Category.sketch
  else if hasSub ft "extrude" || hasSub ft "boss" then Category.extrude
  else if hasSub ft "cut" then Category.cut
  else if hasSub ft "revolve" then Category.revolve
  else if hasSub ft "fillet" then Category.fillet
  else if hasSub ft "chamfer" then Category.chamfer
  else if hasSub ft "hole" then Category.hole
  else if hasSub ft "pattern" then Category.pattern
  else if hasSub ft "mirror" then Category.mirror
  else if hasSub ft "shell" then Category.shell
  else if hasSub ft "draft" then Category.draft
  else if hasSub ft "rib" then Category.rib
  else if hasSub ft "loft" then Category.loft
  else if hasSub ft "sweep" then Category.sweep
  else if hasSub ft "plane" then Category.plane
  else if hasSub ft "axis" then Category.axis
  else if hasSub ft "mate" then Category.mate
  else Category.generic

/-- The type dispatch of _extract_comprehensive_feature_data (FMDT_v5.py,
lines 97-111): a case-sensitive elif chain on feature.GetTypeName() testing
Extrude, Cut, Fillet, Pattern, Hole, Sketch in that order. -/
def classifyV5 (t : String) : Category :=
  if hasSub t "Extrude" then Category.extrude
  else if hasSub t "Cut" then Category.cut
  else if hasSub t "Fillet" then Category.fillet
  else if hasSub t "Pattern" then Category.pattern
  else if hasSub t "Hole" then Category.hole
  else if hasSub t "Sketch" then Category.sketch
  else Category.generic

/-- C3 counterexample: the claim requires case-insensitive matching with
sketch winning over cut, but the FMDT_v5.py dispatch classifies the type
string SketchCut as cut (its chain is case-sensitive and tests Sketch last),
diverging from the claimed priority order. -/
theorem c3_cex :
    classifyV5 "SketchCut" = Category.cut ∧
    classifySpecC3 "SketchCut" = Category.sketch ∧
    Category.cut ≠ Category.sketch := by
  refine ⟨by decide, by decide, by decide⟩

/-- C3 (amended): on every type string in which the extra v3 keyword
profilefeature does not occur, the FMDT_v3.py classifier agrees exactly with
the claimed contract: case-insensitive substring matching, first match wins in
the priority order sketch, extrude/boss, cut, revolve, fillet, chamfer, hole,
pattern, mirror, shell, draft, rib, loft, sweep, plane, axis, mate, defaulting
to generic, always yielding one member of the closed category set.  The
FMDT_v5.py dispatch instead matches case-sensitively in the order extrude,
cut, fillet, pattern, hole, sketch. -/
theorem c3_amended (t : String)
    (h : hasSub (pyLower t) "profilefeature" = false) :
    classifyV3 t = classifySpecC3 t := by
  unfold classifyV3 classifySpecC3
  simp only [h, Bool.or_false]
  cases hrp : hasSub (pyLower t) "refplane" with
  | false => simp [hrp]
  | true =>
    have hp := hasSub_plane_of_refplane (pyLower t) hrp
    simp [hrp, hp]

/-- Concrete instance of the amended C3 statement. -/
theorem c3_amended_witness :
    hasSub (pyLower "Boss-Extrude1") "profilefeature" = false ∧
    classifyV3 "Boss-Extrude1" = classifySpecC3 "Boss-Extrude1" :=
  ⟨by decide, c3_amended "Boss-Extrude1" (by decide)⟩

/-! ## The FMDT_v5.py extractor (shared verbatim by FMDT_lite.py)

SolidWorksTreeExtractor.extract_feature_tree walks the top-level feature chain
FirstFeature/GetNextFeature, building creation_sequence, feature_relationships
and sketch_data, then fills reference_geometry, material_properties and
configurations; the whole walk sits in one try/except, each helper carries its
own try/except. -/

/-- One sketch segment as seen by _extract_sketch_entities: GetType is called
directly, the other five accessors go through getattr with a default. -/
structure SegmentV5 where
  getTypeM : Except Unit PyVal
  getStartPoint2 : Member PyVal
  getEndPoint2 : Member PyVal
  getCenterPoint2 : Member PyVal
  getRadius : Member PyVal
  constructionGeometry : Member PyVal

/-- One edge handle as seen by _get_fillet_edges. -/
structure EdgeV5 where
  getID : Member PyVal
  getType : Member PyVal

/-- The duck-typed object returned by GetSpecificFeature2, carrying every
member the v5 type-specific extractors probe.  The four sketch sub-records
other than the entity list (_get_sketch_plane, _extract_sketch_dimensions,
_extract_sketch_relations, _get_sketch_external_refs) are internally guarded
helpers never inspected by a claim; their outputs are carried as data. -/
structure SpecificV5 where
  endCondition : Member PyVal
  depth : Member PyVal
  reverseDirection : Member PyVal
  mergeResult : Member PyVal
  typeA : Member PyVal
  radius : Member PyVal
  propagateToTangent : Member PyVal
  flipSideToCut : Member PyVal
  draftAngle : Member PyVal
  draftOutward : Member PyVal
  d1TotalInstances : Member PyVal
  d1Spacing : Member PyVal
  d2TotalInstances : Member PyVal
  d2Spacing : Member PyVal
  d1ReverseDirection : Member PyVal
  d2ReverseDirection : Member PyVal
  totalInstances : Member PyVal
  spacing : Member PyVal
  equalSpacing : Member PyVal
  diameter : Member PyVal
  csinkDiameter : Member PyVal
  csinkAngle : Member PyVal
  cboreDiameter : Member PyVal
  cboreDepth : Member PyVal
  threadDesignation : Member PyVal
  threadPitch : Member PyVal
  nameA : Member PyVal
  fullyDefined : Member PyVal
  visible : Member PyVal
  constructionGeometry : Member PyVal
  sketchPicture : Member PyVal
  getSketchRelationsCount : Member PyVal
  getSketchDimensionsCount : Member PyVal
  getEdges : Member (List EdgeV5)
  getRadiusProbe : Member Unit
  getSketchSegmentsM : Except Unit (Option (List SegmentV5))
  sketchPlaneOut : List (String × PyVal)
  dimensionsOut : List PyVal
  relationsOut : List PyVal
  externalRefsOut : List PyVal

/-- The object returned by feature.GetDefinition() as probed by
_get_feature_definition (FMDT_v5.py, lines 119-134). -/
structure FeatDefV5 where
  endCondition : Member PyVal
  direction : Member PyVal
  depth : Member PyVal
  draftAngle : Member PyVal
  reverseDirection : Member PyVal

/-- getattr against an object that may be None: getattr(None, name, default)
returns the default, since None lacks the member. -/
def sgetD (sp : Option SpecificV5) (fld : SpecificV5 → Member PyVal)
    (dflt : PyVal) : Except Unit PyVal :=
  match sp with
  | Option.none => Except.ok dflt
  | some s => getattrD (fld s) dflt

/-- The five getattr probes of _get_feature_definition, in source order. -/
def featDefDict (d : FeatDefV5) : Except Unit (List (String × PyVal)) := do
  let ec ← getattrD d.endCondition PyVal.none
  let dir ← getattrD d.direction PyVal.none
  let dep ← getattrD d.depth PyVal.none
  let da ← getattrD d.draftAngle PyVal.none
  let rd ← getattrD d.reverseDirection (PyVal.bool false)
  pure [("end_condition", ec), ("direction", dir), ("depth", dep),
        ("draft_angle", da), ("reverse_direction", rd)]

/-- _get_feature_definition (FMDT_v5.py, lines 119-134): probe five members by
getattr with a None default, drop the None entries, and fall back to an empty
mapping when the definition is missing or a probe raises a hard fault. -/
def getFeatureDefinitionV5 (dm : Except Unit (Option FeatDefV5)) :
    List (String × PyVal) :=
  match dm with
  | Except.error _ => []
  | Except.ok Option.none => []
  | Except.ok (some d) =>
    match featDefDict d with
    | Except.error _ => []
    | Except.ok kvs => kvs.filter (fun kv => !(isNoneV kv.2))

/-- Collect parent names until the first raising Name access; the surrounding
try/except of _get_feature_dependencies keeps what was appended so far. -/
def takeOkNames : List (Except Unit String) → List String
  | [] => []
  | Except.ok n :: rest => n :: takeOkNames rest
  | Except.error _ :: _ => []

/-- _get_feature_dependencies (FMDT_v5.py, lines 155-165): names of the
GetParents() result, empty when the call raises or yields nothing. -/
def getFeatureDependenciesV5
    (pm : Except Unit (Option (List (Except Unit String)))) : List String :=
  match pm with
  | Except.error _ => []
  | Except.ok Option.none => []
  | Except.ok (some ps) => takeOkNames ps

/-- The per-segment record of _extract_sketch_entities: GetType directly, five
getattr probes, then the comprehension dropping None values. -/
def entityRecord (seg : SegmentV5) : Except Unit (List (String × PyVal)) := do
  let ty ← seg.getTypeM
  let sp ← getattrD seg.getStartPoint2 PyVal.none
  let ep ← getattrD seg.getEndPoint2 PyVal.none
  let cp ← getattrD seg.getCenterPoint2 PyVal.none
  let r ← getattrD seg.getRadius PyVal.none
  let cg ← getattrD seg.constructionGeometry (PyVal.bool false)
  pure (([("type", ty), ("start_point", sp), ("end_point", ep),
          ("center_point", cp), ("radius", r),
          ("construction", cg)]).filter (fun kv => !(isNoneV kv.2)))

/-- The segment loop of _extract_sketch_entities; a hard fault aborts the loop
and the function-level except keeps the entities appended so far. -/
def entitiesLoop : List SegmentV5 → List (List (String × PyVal))
  | [] => []
  | s :: ss =>
    match entityRecord s with
    | Except.error _ => []
    | Except.ok r => r :: entitiesLoop ss

/-- _extract_sketch_entities (FMDT_v5.py, lines 184-202 and FMDT_lite.py,
lines 153-171). -/
def extractSketchEntitiesV5 (sm : Except Unit (Option (List SegmentV5))) :
    List (List (String × PyVal)) :=
  match sm with
  | Except.error _ => []
  | Except.ok Option.none => []
  | Except.ok (some segs) => entitiesLoop segs

/-- _extract_extrude_data (FMDT_v5.py, lines 204-216): getattr probes against
the specific feature (possibly None), all-or-nothing only for hard faults. -/
def extractExtrudeDataV5 (spm : Except Unit (Option SpecificV5)) (t : String) :
    List (String × PyVal) :=
  match spm with
  | Except.error _ => []
  | Except.ok sp =>
    match (do
      let ec ← sgetD sp (fun s => s.endCondition) (PyVal.str "")
      let dv ← sgetD sp (fun s => s.depth) (PyVal.num 0)
      let rd ← sgetD sp (fun s => s.reverseDirection) (PyVal.bool false)
      let mr ← sgetD sp (fun s => s.mergeResult) (PyVal.bool true)
      pure [("extrude_type",
             PyVal.str (if hasSub t "Boss" then "boss" else "cut")),
            ("end_condition_type", ec), ("depth_value", dv),
            ("reverse_direction", rd), ("merge_result", mr)]) with
    | Except.error _ => []
    | Except.ok kvs => kvs

/-- _extract_cut_data (FMDT_v5.py, lines 379-397). -/
def extractCutDataV5 (spm : Except Unit (Option SpecificV5)) (t : String) :
    List (String × PyVal) :=
  match spm with
  | Except.error _ => []
  | Except.ok Option.none => []
  | Except.ok (some sp) =>
    match (do
      let ec ← getattrD sp.endCondition (PyVal.num 0)
      let dp ← getattrD sp.depth (PyVal.num 0)
      let rd ← getattrD sp.reverseDirection (PyVal.bool false)
      let fl ← getattrD sp.flipSideToCut (PyVal.bool false)
      let da ← getattrD sp.draftAngle (PyVal.num 0)
      let dw ← getattrD sp.draftOutward (PyVal.bool true)
      pure [("cut_type",
             PyVal.str (if hasSub t "Cut" then "extrude_cut" else "other")),
            ("end_condition", ec), ("depth", dp), ("reverse_direction", rd),
            ("flip_side_to_cut", fl), ("draft_angle", da),
            ("draft_outward", dw)]) with
    | Except.error _ => []
    | Except.ok kvs => kvs

/-- The edge loop of _get_fillet_edges; the GetRadius hasattr probe raises a
hard fault only for an err member, otherwise the radius is always 0 because
the probed attribute name GetRadius(i) never exists. -/
def filletEdgesLoop (probe : Member Unit) : Nat → List EdgeV5 → List PyVal
  | _, [] => []
  | i, e :: es =>
    match (do
      let id ← getattrD e.getID (PyVal.num 0)
      let ty ← getattrD e.getType (PyVal.num 0)
      let _ ← (match probe with
               | Member.err => (Except.error () : Except Unit Unit)
               | _ => Except.ok ())
      pure (PyVal.dict [("edge_index", PyVal.num i), ("edge_id", id),
                        ("edge_type", ty), ("radius", PyVal.num 0)])) with
    | Except.error _ => []
    | Except.ok d => d :: filletEdgesLoop probe (i + 1) es

/-- _get_fillet_edges (FMDT_v5.py, lines 568-586). -/
def getFilletEdgesV5 (sp : Option SpecificV5) : List PyVal :=
  match sp with
  | Option.none => []
  | some s =>
    match getattrD s.getEdges [] with
    | Except.error _ => []
    | Except.ok es => filletEdgesLoop s.getRadiusProbe 0 es

/-- _extract_fillet_data (FMDT_v5.py, lines 218-229): no None guard, so a
missing specific feature still yields the getattr defaults. -/
def extractFilletDataV5 (spm : Except Unit (Option SpecificV5)) :
    List (String × PyVal) :=
  match spm with
  | Except.error _ => []
  | Except.ok sp =>
    match (do
      let ft ← sgetD sp (fun s => s.typeA) (PyVal.str "")
      let rv ← sgetD sp (fun s => s.radius) (PyVal.num 0)
      let pt ← sgetD sp (fun s => s.propagateToTangent) (PyVal.bool false)
      pure [("fillet_type", ft), ("radius_value", rv),
            ("selected_edges", PyVal.list (getFilletEdgesV5 sp)),
            ("propagate_to_tangent", pt)]) with
    | Except.error _ => []
    | Except.ok kvs => kvs

/-- _extract_pattern_data (FMDT_v5.py, lines 399-428). -/
def extractPatternDataV5 (spm : Except Unit (Option SpecificV5)) (t : String) :
    List (String × PyVal) :=
  match spm with
  | Except.error _ => []
  | Except.ok Option.none => []
  | Except.ok (some sp) =>
    if hasSub t "LinearPattern" then
      match (do
        let c1 ← getattrD sp.d1TotalInstances (PyVal.num 1)
        let s1 ← getattrD sp.d1Spacing (PyVal.num 0)
        let c2 ← getattrD sp.d2TotalInstances (PyVal.num 1)
        let s2 ← getattrD sp.d2Spacing (PyVal.num 0)
        let r1 ← getattrD sp.d1ReverseDirection (PyVal.bool false)
        let r2 ← getattrD sp.d2ReverseDirection (PyVal.bool false)
        pure [("pattern_type", PyVal.str "linear"),
              ("direction_1_count", c1), ("direction_1_spacing", s1),
              ("direction_2_count", c2), ("direction_2_spacing", s2),
              ("direction_1_reverse", r1), ("direction_2_reverse", r2)]) with
      | Except.error _ => []
      | Except.ok kvs => kvs
    else if hasSub t "CircularPattern" then
      match (do
        let ti ← getattrD sp.totalInstances (PyVal.num 1)
        let asp ← getattrD sp.spacing (PyVal.num 0)
        let es ← getattrD sp.equalSpacing (PyVal.bool true)
        let rd ← getattrD sp.reverseDirection (PyVal.bool false)
        pure [("pattern_type", PyVal.str "circular"),
              ("total_instances", ti), ("angle_spacing", asp),
              ("equal_spacing", es), ("reverse_direction", rd)]) with
      | Except.error _ => []
      | Except.ok kvs => kvs
    else []

/-- _extract_hole_data (FMDT_v5.py, lines 430-451). -/
def extractHoleDataV5 (spm : Except Unit (Option SpecificV5)) :
    List (String × PyVal) :=
  match spm with
  | Except.error _ => []
  | Except.ok Option.none => []
  | Except.ok (some sp) =>
    match (do
      let ht ← getattrD sp.typeA (PyVal.num 0)
      let di ← getattrD sp.diameter (PyVal.num 0)
      let dp ← getattrD sp.depth (PyVal.num 0)
      let ec ← getattrD sp.endCondition (PyVal.num 0)
      let cd ← getattrD sp.csinkDiameter (PyVal.num 0)
      let ca ← getattrD sp.csinkAngle (PyVal.num 0)
      let bd ← getattrD sp.cboreDiameter (PyVal.num 0)
      let bp ← getattrD sp.cboreDepth (PyVal.num 0)
      let td ← getattrD sp.threadDesignation (PyVal.str "")
      let tp ← getattrD sp.threadPitch (PyVal.num 0)
      pure [("hole_type", ht), ("diameter", di), ("depth", dp),
            ("end_condition", ec), ("countersink_diameter", cd),
            ("countersink_angle", ca), ("counterbore_diameter", bd),
            ("counterbore_depth", bp), ("thread_designation", td),
            ("thread_pitch", tp)]) with
    | Except.error _ => []
    | Except.ok kvs => kvs

/-- _extract_sketch_metadata (FMDT_v5.py, lines 453-471). -/
def extractSketchMetadataV5 (spm : Except Unit (Option SpecificV5)) :
    List (String × PyVal) :=
  match spm with
  | Except.error _ => []
  | Except.ok Option.none => []
  | Except.ok (some sp) =>
    match (do
      let nm ← getattrD sp.nameA (PyVal.str "")
      let fd ← getattrD sp.fullyDefined (PyVal.bool false)
      let vi ← getattrD sp.visible (PyVal.bool true)
      let cg ← getattrD sp.constructionGeometry (PyVal.bool false)
      let pic ← getattrD sp.sketchPicture PyVal.none
      let rc ← getattrD sp.getSketchRelationsCount (PyVal.num 0)
      let dc ← getattrD sp.getSketchDimensionsCount (PyVal.num 0)
      pure [("sketch_name", nm), ("fully_defined", fd), ("visible", vi),
            ("construction_geometry", cg), ("sketch_picture", pic),
            ("relation_count", rc), ("dimension_count", dc)]) with
    | Except.error _ => []
    | Except.ok kvs => kvs

/-- One feature of the FirstFeature/GetNextFeature chain as probed by the v5
extractor.  parametersOut, constraintsOut, referencePlanesOut and
selectionDataOut carry the outputs of _extract_feature_parameters,
_extract_constraints, _get_reference_planes and _get_selection_references,
which are fully guarded internally (they catch every exception and return
their accumulator) and are never inspected by a claim.  nextRaises models
GetNextFeature raising when called on this feature. -/
structure FeatureV5 where
  nameM : Except Unit String
  typeNameM : Except Unit String
  suppressedM : Except Unit Bool
  getDefinitionM : Except Unit (Option FeatDefV5)
  parentsM : Except Unit (Option (List (Except Unit String)))
  specificM : Except Unit (Option SpecificV5)
  parametersOut : List (String × PyVal)
  constraintsOut : List PyVal
  referencePlanesOut : List String
  selectionDataOut : List (String × PyVal)
  nextRaises : Bool

/-- The dict built per feature by _extract_comprehensive_feature_data.  The
type-specific update keys are carried in typeSpecific (the Python dict.update
merges them into the same mapping; no key of the base record collides). -/
structure RecordV5 where
  creationOrder : Nat
  name : String
  ftype : String
  suppressed : Bool
  featureDefinition : List (String × PyVal)
  parameters : List (String × PyVal)
  dependencies : List String
  geometricConstraints : List PyVal
  referencePlanes : List String
  selectionData : List (String × PyVal)
  typeSpecific : List (String × PyVal)

/-- The type-specific elif chain of _extract_comprehensive_feature_data
(FMDT_v5.py, lines 97-111). -/
def typeDispatchV5 (f : FeatureV5) (t : String) : List (String × PyVal) :=
  if hasSub t "Extrude" then extractExtrudeDataV5 f.specificM t
  else if hasSub t "Cut" then extractCutDataV5 f.specificM t
  else if hasSub t "Fillet" then extractFilletDataV5 f.specificM
  else if hasSub t "Pattern" then extractPatternDataV5 f.specificM t
  else if hasSub t "Hole" then extractHoleDataV5 f.specificM
  else if hasSub t "Sketch" then extractSketchMetadataV5 f.specificM
  else []

/-- _extract_comprehensive_feature_data (FMDT_v5.py, lines 80-117).  The dict
literal evaluates Name, GetTypeName and IsSuppressed in order inside the try;
on a fault the except handler prints an f-string that evaluates feature.Name
again, so a raising Name propagates to the caller (Except.error) while a fault
in a later accessor returns None (Except.ok Option.none). -/
def extractComprehensiveFeatureData (f : FeatureV5) (k : Nat) :
    Except Unit (Option RecordV5) :=
  match f.nameM with
  | Except.error _ => Except.error ()
  | Except.ok n =>
    match f.typeNameM with
    | Except.error _ => Except.ok Option.none
    | Except.ok t =>
      match f.suppressedM with
      | Except.error _ => Except.ok Option.none
      | Except.ok s =>
        Except.ok (some
          { creationOrder := k
            name := n
            ftype := t
            suppressed := s
            featureDefinition := getFeatureDefinitionV5 f.getDefinitionM
            parameters := f.parametersOut
            dependencies := getFeatureDependenciesV5 f.parentsM
            geometricConstraints := f.constraintsOut
            referencePlanes := f.referencePlanesOut
            selectionData := f.selectionDataOut
            typeSpecific := typeDispatchV5 f t })

/-- _extract_sketch_details (FMDT_v5.py, lines 167-182): a five-key dict when
GetSpecificFeature2 yields a sketch, empty otherwise; the entity list is the
real _extract_sketch_entities output, the four other sub-extractors are
guarded helpers carried as data. -/
def extractSketchDetailsV5 (f : FeatureV5) : List (String × PyVal) :=
  match f.specificM with
  | Except.error _ => []
  | Except.ok Option.none => []
  | Except.ok (some sp) =>
    [("sketch_plane", PyVal.dict sp.sketchPlaneOut),
     ("sketch_entities",
      PyVal.list ((extractSketchEntitiesV5 sp.getSketchSegmentsM).map PyVal.dict)),
     ("dimensions", PyVal.list sp.dimensionsOut),
     ("relations", PyVal.list sp.relationsOut),
     ("external_references", PyVal.list sp.externalRefsOut)]

/-- Output of the while loop of extract_feature_tree: the three mappings the
loop mutates, plus whether the loop was aborted by a propagating fault (in
which case the code after the loop is skipped by the outer except). -/
structure WalkOutV5 where
  seq : List RecordV5
  rels : List (String × List String)
  sk : List (String × List (String × PyVal))
  aborted : Bool

/-- The while loop of extract_feature_tree (FMDT_v5.py, lines 44-67):
per-feature extraction, the three conditional appends, the creation_order
increment only on success, and the GetNextFeature advance whose fault aborts
the loop keeping everything appended so far. -/
def walkV5 : List FeatureV5 → Nat → WalkOutV5
  | [], _ => ⟨[], [], [], false⟩
  | f :: fs, k =>
    match extractComprehensiveFeatureData f k with
    | Except.error _ => ⟨[], [], [], true⟩
    | Except.ok Option.none =>
      if f.nextRaises then ⟨[], [], [], true⟩ else walkV5 fs k
    | Except.ok (some r) =>
      let rest := if f.nextRaises then (⟨[], [], [], true⟩ : WalkOutV5)
                  else walkV5 fs (k + 1)
      let sd := extractSketchDetailsV5 f
      { seq := r :: rest.seq
        rels := if r.dependencies.isEmpty then rest.rels
                else (r.name, r.dependencies) :: rest.rels
        sk := if (r.ftype == "ProfileFeature" || r.ftype == "Sketch")
                 && !sd.isEmpty then (r.name, sd) :: rest.sk
              else rest.sk
        aborted := rest.aborted }

/-- One reference plane handle as probed by _extract_reference_geometry and
_get_plane_definition. -/
structure PlaneV5 where
  nameAttr : Member String
  planeParams : Member (List PyVal)
  getTypeAttr : Member PyVal

/-- The first three slots of PlaneParams or the documented fallback. -/
def planeNormal (ps : List PyVal) : PyVal :=
  PyVal.list (if ps.length ≥ 3 then ps.take 3
              else [PyVal.num 0, PyVal.num 0, PyVal.num 1])

/-- Slots three to six of PlaneParams or the documented fallback. -/
def planeOrigin (ps : List PyVal) : PyVal :=
  PyVal.list (if ps.length ≥ 6 then (ps.drop 3).take 3
              else [PyVal.num 0, PyVal.num 0, PyVal.num 0])

/-- Slot six of PlaneParams or 0. -/
def planeConstant (ps : List PyVal) : PyVal :=
  match ps.drop 6 with
  | [] => PyVal.num 0
  | v :: _ => v

/-- The name/type getattr suffix of _get_plane_definition, appended to
whatever the params step already accumulated. -/
def planeDefSuffix (p : PlaneV5) (acc : List (String × PyVal)) :
    List (String × PyVal) :=
  match getattrD p.nameAttr "" with
  | Except.error _ => acc
  | Except.ok n =>
    match getattrD p.getTypeAttr (PyVal.num 0) with
    | Except.error _ => acc ++ [("name", PyVal.str n)]
    | Except.ok t => acc ++ [("name", PyVal.str n), ("type", t)]

/-- _get_plane_definition (FMDT_v5.py, lines 588-608). -/
def getPlaneDefinitionV5 (p : PlaneV5) : List (String × PyVal) :=
  match p.planeParams with
  | Member.err => []
  | Member.absent => planeDefSuffix p []
  | Member.val ps =>
    if ps.isEmpty then planeDefSuffix p []
    else planeDefSuffix p
      [("normal_vector", planeNormal ps), ("origin_point", planeOrigin ps),
       ("plane_constant", planeConstant ps)]

/-- The plane loop of _extract_reference_geometry: a raising Name aborts the
loop, keeping the entries appended so far. -/
def refGeomLoop : List PlaneV5 → List PyVal
  | [] => []
  | p :: ps =>
    match getDirect p.nameAttr with
    | Except.error _ => []
    | Except.ok n =>
      PyVal.dict [("type", PyVal.str "reference_plane"), ("name", PyVal.str n),
                  ("definition", PyVal.dict (getPlaneDefinitionV5 p))]
        :: refGeomLoop ps

/-- The material property extension as probed by _get_material_properties. -/
structure MatExtV5 where
  density : Member PyVal
  elasticModulus : Member PyVal
  poissonVal : Member PyVal
  yieldStrength : Member PyVal
  tensileStrength : Member PyVal
  thermalExpansion : Member PyVal
  thermalConductivity : Member PyVal
  specificHeat : Member PyVal

/-- One configuration object as returned by ConfigurationManager.Item:
suppStates carries config.GetSuppressionState per feature of the chain. -/
structure ConfigObjV5 where
  suppStates : List (Except Unit Int)

/-- The ConfigurationManager handle. -/
structure ConfigMgrV5 where
  activeNameM : Except Unit String
  items : List (String × Except Unit ConfigObjV5)

/-- The session model the v5 extractor reads: firstRaises models FirstFeature
raising (for instance with no open document the None model reference raises
AttributeError), the remaining fields feed the document-level helpers. -/
structure ModelV5 where
  firstRaises : Bool
  features : List FeatureV5
  getTypeM : Except Unit Int
  getRefPlanesM : Except Unit (List PlaneV5)
  materialPropertyName : Member PyVal
  matExtM : Except Unit (Option MatExtV5)
  configurationManager : Member ConfigMgrV5
  getConfigurationNamesM : Except Unit (List String)

/-- _get_document_type (FMDT_v5.py, lines 231-238). -/
def getDocumentTypeV5 (m : ModelV5) : String :=
  match m.getTypeM with
  | Except.error _ => "unknown"
  | Except.ok t =>
    if t = 1 then "part" else if t = 2 then "assembly"
    else if t = 3 then "drawing" else "unknown"

/-- _extract_reference_geometry (FMDT_v5.py, lines 240-254). -/
def extractReferenceGeometryV5 (m : ModelV5) : List PyVal :=
  match m.getRefPlanesM with
  | Except.error _ => []
  | Except.ok ps => refGeomLoop ps

/-- _get_material_properties (FMDT_v5.py, lines 610-633): eight getattr
probes when the extension is available, then the getattr name suffix; a hard
fault keeps what was built before it. -/
def getMaterialPropertiesV5 (m : ModelV5) : List (String × PyVal) :=
  match m.matExtM with
  | Except.error _ => []
  | Except.ok extOpt =>
    let base : Except Unit (List (String × PyVal)) :=
      match extOpt with
      | Option.none => Except.ok []
      | some e => do
        let de ← getattrD e.density (PyVal.num 0)
        let el ← getattrD e.elasticModulus (PyVal.num 0)
        let po ← getattrD e.poissonVal (PyVal.num 0)
        let ys ← getattrD e.yieldStrength (PyVal.num 0)
        let ts ← getattrD e.tensileStrength (PyVal.num 0)
        let te ← getattrD e.thermalExpansion (PyVal.num 0)
        let tc ← getattrD e.thermalConductivity (PyVal.num 0)
        let sh ← getattrD e.specificHeat (PyVal.num 0)
        pure [("density", de), ("elastic_modulus", el), ("poisson_ratio", po),
              ("yield_strength", ys), ("tensile_strength", ts),
              ("thermal_expansion", te), ("thermal_conductivity", tc),
              ("specific_heat", sh)]
    match base with
    | Except.error _ => []
    | Except.ok kvs =>
      match getattrD m.materialPropertyName (PyVal.str "") with
      | Except.error _ => kvs
      | Except.ok nm => kvs ++ [("name", nm)]

/-- _extract_material_info (FMDT_v5.py, lines 256-265): the direct
MaterialPropertyName access decides between the two-key mapping and the empty
fallback. -/
def extractMaterialInfoV5 (m : ModelV5) : List (String × PyVal) :=
  match getDirect m.materialPropertyName with
  | Except.error _ => []
  | Except.ok v =>
    [("material_name", v),
     ("material_properties", PyVal.dict (getMaterialPropertiesV5 m))]

/-- The suppression walk of _get_suppressed_features_in_config: the feature
chain re-walked against GetSuppressionState, aborting on any fault and
keeping the names appended so far. -/
def suppLoop : List (FeatureV5 × Except Unit Int) → List String
  | [] => []
  | (f, st) :: rest =>
    match st with
    | Except.error _ => []
    | Except.ok s =>
      if s = 0 then
        match f.nameM with
        | Except.error _ => []
        | Except.ok n => if f.nextRaises then [n] else n :: suppLoop rest
      else if f.nextRaises then [] else suppLoop rest

/-- _get_suppressed_features_in_config (FMDT_v5.py, lines 635-651). -/
def suppressedFeaturesV5 (m : ModelV5) (cfg : ConfigObjV5) : List String :=
  if m.firstRaises then [] else suppLoop (m.features.zip cfg.suppStates)

/-- One emitted configuration entry. -/
structure ConfigRec where
  name : String
  active : Bool
  suppressed : List String

/-- The configuration loop of _extract_configurations: Item lookup, the
active-name comparison and the suppression walk per name; a fault keeps the
entries appended so far. -/
def configLoop (m : ModelV5) (mgr : ConfigMgrV5) : List String → List ConfigRec
  | [] => []
  | n :: ns =>
    match (mgr.items.lookup n).getD (Except.error ()) with
    | Except.error _ => []
    | Except.ok cfg =>
      match mgr.activeNameM with
      | Except.error _ => []
      | Except.ok an =>
        { name := n, active := n == an,
          suppressed := suppressedFeaturesV5 m cfg } :: configLoop m mgr ns

/-- _extract_configurations (FMDT_v5.py, lines 267-283). -/
def extractConfigurationsV5 (m : ModelV5) : List ConfigRec :=
  match getDirect m.configurationManager with
  | Except.error _ => []
  | Except.ok mgr =>
    match m.getConfigurationNamesM with
    | Except.error _ => []
    | Except.ok ns => configLoop m mgr ns

/-- The tree_data mapping of extract_feature_tree: exactly the seven keys
initialized at FMDT_v5.py lines 34-42. -/
structure TreeDataV5 where
  documentType : String
  creationSequence : List RecordV5
  featureRelationships : List (String × List String)
  sketchData : List (String × List (String × PyVal))
  referenceGeometry : List PyVal
  materialProperties : List (String × PyVal)
  configurations : List ConfigRec

/-- extract_feature_tree (FMDT_v5.py, lines 31-77): document_type is computed
before the try, the walk fills the three sequence mappings, and the three
document-level helpers run only when the walk was not aborted by a fault (the
outer except catches the fault after the partially filled tree_data was
already mutated in place, and the function returns it). -/
def extractFeatureTreeV5 (m : ModelV5) : TreeDataV5 :=
  if m.firstRaises then
    { documentType := getDocumentTypeV5 m, creationSequence := [],
      featureRelationships := [], sketchData := [], referenceGeometry := [],
      materialProperties := [], configurations := [] }
  else
    let w := walkV5 m.features 0
    { documentType := getDocumentTypeV5 m
      creationSequence := w.seq
      featureRelationships := w.rels
      sketchData := w.sk
      referenceGeometry := if w.aborted then [] else extractReferenceGeometryV5 m
      materialProperties := if w.aborted then [] else extractMaterialInfoV5 m
      configurations := if w.aborted then [] else extractConfigurationsV5 m }

theorem extract_some_fields (f : FeatureV5) (k : Nat) (r : RecordV5)
    (h : extractComprehensiveFeatureData f k = Except.ok (some r)) :
    r.creationOrder = k ∧ f.nameM = Except.ok r.name := by
  unfold extractComprehensiveFeatureData at h
  cases hn : f.nameM with
  | error e => rw [hn] at h; simp at h
  | ok n =>
    rw [hn] at h
    cases ht : f.typeNameM with
    | error e => rw [ht] at h; simp at h
    | ok t =>
      rw [ht] at h
      cases hs : f.suppressedM with
      | error e => rw [hs] at h; simp at h
      | ok s =>
        rw [hs] at h
        simp only [Except.ok.injEq, Option.some.injEq] at h
        rw [← h]
        exact ⟨rfl, rfl⟩

theorem extract_error_of_name (f : FeatureV5) (k : Nat)
    (h : exOk f.nameM = false) :
    extractComprehensiveFeatureData f k = Except.error () := by
  unfold extractComprehensiveFeatureData
  cases hn : f.nameM with
  | error e => rfl
  | ok n => rw [hn] at h; simp [exOk] at h

theorem extract_none_of_later (f : FeatureV5) (k : Nat) (n : String)
    (hn : f.nameM = Except.ok n)
    (h : exOk f.typeNameM = false ∨ exOk f.suppressedM = false) :
    extractComprehensiveFeatureData f k = Except.ok Option.none := by
  unfold extractComprehensiveFeatureData
  rw [hn]
  cases ht : f.typeNameM with
  | error e => rfl
  | ok t =>
    cases hs : f.suppressedM with
    | error e => rfl
    | ok s =>
      exfalso
      rcases h with h | h
      · rw [ht] at h; simp [exOk] at h
      · rw [hs] at h; simp [exOk] at h

theorem walk_order_aux (fs : List FeatureV5) :
    ∀ (k i : Nat) (r : RecordV5), (walkV5 fs k).seq[i]? = some r →
      r.creationOrder = k + i := by
  induction fs with
  | nil => intro k i r h; simp [walkV5] at h
  | cons f fs ih =>
    intro k i r h
    simp only [walkV5] at h
    cases hx : extractComprehensiveFeatureData f k with
    | error e => rw [hx] at h; simp at h
    | ok o =>
      rw [hx] at h
      cases o with
      | none =>
        simp only [] at h
        by_cases hnr : f.nextRaises
        · simp [hnr] at h
        · simp only [hnr, if_false, Bool.false_eq_true] at h
          exact ih k i r h
      | some r0 =>
        simp only [] at h
        cases i with
        | zero =>
          simp at h
          have := (extract_some_fields f k r0 hx).1
          rw [← h]
          simpa using this
        | succ i =>
          simp only [List.getElem?_cons_succ] at h
          by_cases hnr : f.nextRaises
          · simp [hnr] at h
          · simp only [hnr, if_false, Bool.false_eq_true] at h
            have := ih (k + 1) i r h
            omega

/-- C5: in every extraction run of FMDT_v5.py (and the identical
FMDT_lite.py), the creation_order values recorded on the emitted
creation_sequence are exactly 0, 1, 2, ... in order: the entry at position i
carries creation_order i, with no gaps or repeats. -/
theorem c5_creation_order (m : ModelV5) (i : Nat) (r : RecordV5)
    (h : (extractFeatureTreeV5 m).creationSequence[i]? = some r) :
    r.creationOrder = i := by
  unfold extractFeatureTreeV5 at h
  by_cases hf : m.firstRaises
  · simp [hf] at h
  · simp only [hf, if_false, Bool.false_eq_true] at h
    have := walk_order_aux m.features 0 i r h
    omega

/-- A three-feature model with all accessors available. -/
def plainFeatureV5 (nm : String) : FeatureV5 :=
  { nameM := Except.ok nm, typeNameM := Except.ok "RefPlane",
    suppressedM := Except.ok false, getDefinitionM := Except.ok Option.none,
    parentsM := Except.ok Option.none, specificM := Except.ok Option.none,
    parametersOut := [], constraintsOut := [], referencePlanesOut := [],
    selectionDataOut := [], nextRaises := false }

/-- A session model used to instantiate the confirmed v5 theorems. -/
def demoModelV5 : ModelV5 :=
  { firstRaises := false,
    features := [plainFeatureV5 "Plane1", plainFeatureV5 "Plane2",
                 plainFeatureV5 "Plane3"],
    getTypeM := Except.ok 1, getRefPlanesM := Except.ok [],
    materialPropertyName := Member.absent, matExtM := Except.ok Option.none,
    configurationManager := Member.absent,
    getConfigurationNamesM := Except.ok [] }

/-- Concrete instance of C5 at position 1 of a three-feature run. -/
theorem c5_creation_order_witness :
    ∃ r : RecordV5,
      (extractFeatureTreeV5 demoModelV5).creationSequence[1]? = some r ∧
      r.creationOrder = 1 := by
  have h : (extractFeatureTreeV5 demoModelV5).creationSequence.length = 3 := by
    rfl
  cases hx : (extractFeatureTreeV5 demoModelV5).creationSequence[1]? with
  | none =>
    exfalso
    rw [List.getElem?_eq_none_iff] at hx
    omega
  | some r => exact ⟨r, rfl, c5_creation_order demoModelV5 1 r hx⟩

theorem walk_rels_aux (fs : List FeatureV5) :
    ∀ (k : Nat) (p : String × List String), p ∈ (walkV5 fs k).rels →
      p.1 ∈ (walkV5 fs k).seq.map RecordV5.name := by
  induction fs with
  | nil => intro k p h; simp [walkV5] at h
  | cons f fs ih =>
    intro k p h
    simp only [walkV5] at h ⊢
    cases hx : extractComprehensiveFeatureData f k with
    | error e => rw [hx] at h; simp at h
    | ok o =>
      rw [hx] at h
      cases o with
      | none =>
        simp only [] at h ⊢
        by_cases hnr : f.nextRaises
        · simp [hnr] at h
        · simp only [hnr, if_false, Bool.false_eq_true] at h ⊢
          exact ih k p h
      | some r0 =>
        simp only [] at h ⊢
        by_cases hnr : f.nextRaises
        · simp only [hnr, if_true] at h ⊢
          by_cases hd : r0.dependencies.isEmpty
          · simp [hd] at h
          · simp only [hd, if_false, Bool.false_eq_true] at h
            simp only [List.mem_cons, List.mem_singleton] at h
            rcases h with h | h
            · rw [h]; simp
            · simp at h
        · simp only [hnr, if_false, Bool.false_eq_true] at h ⊢
          by_cases hd : r0.dependencies.isEmpty
          · simp only [hd, if_true] at h
            have := ih (k + 1) p h
            simp only [List.map_cons, List.mem_cons]
            exact Or.inr this
          · simp only [hd, if_false, Bool.false_eq_true] at h
            simp only [List.mem_cons] at h
            rcases h with h | h
            · rw [h]; simp
            · have := ih (k + 1) p h
              simp only [List.map_cons, List.mem_cons]
              exact Or.inr this

/-- C8: every key of the feature_relationships mapping emitted by
extract_feature_tree (FMDT_v5.py, lines 48-67) is the name of an entry
actually present in the emitted creation_sequence; names appearing only as
dependency values carry no such obligation (the map is only written together
with an append to the sequence). -/
theorem c8_relationship_keys (m : ModelV5) (p : String × List String)
    (h : p ∈ (extractFeatureTreeV5 m).featureRelationships) :
    p.1 ∈ (extractFeatureTreeV5 m).creationSequence.map RecordV5.name := by
  unfold extractFeatureTreeV5 at h ⊢
  by_cases hf : m.firstRaises
  · simp [hf] at h
  · simp only [hf, if_false, Bool.false_eq_true] at h ⊢
    exact walk_rels_aux m.features 0 p h

/-- A feature that declares one parent dependency. -/
def depFeatureV5 : FeatureV5 :=
  { plainFeatureV5 "Boss-Extrude1" with
    parentsM := Except.ok (some [Except.ok "Sketch1"]) }

/-- A session model whose single feature has a dependency entry. -/
def depModelV5 : ModelV5 :=
  { demoModelV5 with features := [plainFeatureV5 "Sketch1", depFeatureV5] }

/-- Concrete instance of C8: the one relationship key names a tree entry. -/
theorem c8_relationship_keys_witness :
    ("Boss-Extrude1", ["Sketch1"]) ∈
      (extractFeatureTreeV5 depModelV5).featureRelationships ∧
    "Boss-Extrude1" ∈
      (extractFeatureTreeV5 depModelV5).creationSequence.map RecordV5.name :=
  ⟨by decide, c8_relationship_keys depModelV5 ("Boss-Extrude1", ["Sketch1"])
    (by decide)⟩

/-- Whether _extract_comprehensive_feature_data returns a record for this
feature: the three unguarded accessors of its dict literal all succeed. -/
def okExtractV5 (f : FeatureV5) : Bool :=
  exOk f.nameM && exOk f.typeNameM && exOk f.suppressedM

/-- The features the while loop of extract_feature_tree actually processes: it
stops early at a feature whose Name re-raises inside the except handler
(dropping that feature) or whose GetNextFeature call raises (keeping it). -/
def processedPreV5 : List FeatureV5 → List FeatureV5
  | [] => []
  | f :: fs =>
    if !(exOk f.nameM) then []
    else if f.nextRaises then [f]
    else f :: processedPreV5 fs

theorem walk_names_aux (fs : List FeatureV5) :
    ∀ k : Nat, (walkV5 fs k).seq.map RecordV5.name =
      ((processedPreV5 fs).filter okExtractV5).map (fun f => okStr f.nameM) := by
  induction fs with
  | nil => intro k; simp [walkV5, processedPreV5]
  | cons f fs ih =>
    intro k
    cases hn : f.nameM with
    | error e =>
      have hx := extract_error_of_name f k (by rw [hn]; rfl)
      have hpp : processedPreV5 (f :: fs) = [] := by
        simp [processedPreV5, hn, exOk]
      rw [hpp]
      simp only [walkV5, hx]
      simp
    | ok n =>
      have hpp : processedPreV5 (f :: fs) =
          if f.nextRaises then [f] else f :: processedPreV5 fs := by
        simp [processedPreV5, hn, exOk]
      rcases ht : f.typeNameM with te | t
      · have hx := extract_none_of_later f k n hn (Or.inl (by rw [ht]; rfl))
        have hko : okExtractV5 f = false := by
          simp [okExtractV5, exOk, hn, ht]
        rw [hpp]
        simp only [walkV5, hx]
        by_cases hnr : f.nextRaises
        · simp [hnr, hko]
        · simp only [hnr, Bool.false_eq_true, if_false]
          rw [List.filter_cons_of_neg (by simp [hko])]
          exact ih k
      · rcases hs : f.suppressedM with se | s
        · have hx := extract_none_of_later f k n hn (Or.inr (by rw [hs]; rfl))
          have hko : okExtractV5 f = false := by
            simp [okExtractV5, exOk, hn, hs]
          rw [hpp]
          simp only [walkV5, hx]
          by_cases hnr : f.nextRaises
          · simp [hnr, hko]
          · simp only [hnr, Bool.false_eq_true, if_false]
            rw [List.filter_cons_of_neg (by simp [hko])]
            exact ih k
        · have hx : ∃ r, extractComprehensiveFeatureData f k =
              Except.ok (some r) := by
            unfold extractComprehensiveFeatureData
            rw [hn, ht, hs]
            exact ⟨_, rfl⟩
          obtain ⟨r, hx⟩ := hx
          have hname : r.name = n := by
            have h2 := (extract_some_fields f k r hx).2
            rw [hn] at h2
            injection h2 with h3
            exact h3.symm
          have hko : okExtractV5 f = true := by
            simp [okExtractV5, exOk, hn, ht, hs]
          rw [hpp]
          simp only [walkV5, hx]
          by_cases hnr : f.nextRaises
          · simp only [hnr, if_true]
            rw [List.filter_cons_of_pos (by simp [hko])]
            simp [hname, okStr, hn]
          · simp only [hnr, Bool.false_eq_true, if_false]
            rw [List.filter_cons_of_pos (by simp [hko])]
            simp only [List.map_cons]
            rw [ih (k + 1)]
            simp [hname, okStr, hn]

/-- C10: extract_feature_tree (FMDT_v5.py, lines 31-77) is total on every
session state - its result is always a TreeDataV5 carrying exactly the seven
keys document_type, creation_sequence, feature_relationships, sketch_data,
reference_geometry, material_properties and configurations - and whatever
fault interrupts the walk (a missing model making FirstFeature raise, a Name
accessor re-raising inside the handler, or GetNextFeature raising mid-chain),
the creation_sequence retains exactly the successfully extracted features
processed before the fault, in order. -/
theorem c10_walk_resilience (m : ModelV5) :
    (extractFeatureTreeV5 m).creationSequence.map RecordV5.name =
      if m.firstRaises then []
      else ((processedPreV5 m.features).filter okExtractV5).map
        (fun f => okStr f.nameM) := by
  unfold extractFeatureTreeV5
  by_cases hf : m.firstRaises
  · simp [hf]
  · simp only [hf, if_false, Bool.false_eq_true]
    exact walk_names_aux m.features 0

/-- C9: a session whose document yields no first feature (the feature chain is
empty and FirstFeature does not raise) produces a creation_sequence of length
zero together with the full document-level block: document_type is one of the
four closed values and reference geometry, material properties and
configurations are populated by their extractors (the post-loop assignments do
run). -/
theorem c9_empty_document (m : ModelV5) (h1 : m.firstRaises = false)
    (h2 : m.features = []) :
    (extractFeatureTreeV5 m).creationSequence = [] ∧
    (extractFeatureTreeV5 m).featureRelationships = [] ∧
    (extractFeatureTreeV5 m).sketchData = [] ∧
    (extractFeatureTreeV5 m).documentType ∈
      ["part", "assembly", "drawing", "unknown"] ∧
    (extractFeatureTreeV5 m).referenceGeometry = extractReferenceGeometryV5 m ∧
    (extractFeatureTreeV5 m).materialProperties = extractMaterialInfoV5 m ∧
    (extractFeatureTreeV5 m).configurations = extractConfigurationsV5 m := by
  have he : extractFeatureTreeV5 m =
      { documentType := getDocumentTypeV5 m, creationSequence := [],
        featureRelationships := [], sketchData := [],
        referenceGeometry := extractReferenceGeometryV5 m,
        materialProperties := extractMaterialInfoV5 m,
        configurations := extractConfigurationsV5 m } := by
    unfold extractFeatureTreeV5
    rw [h1, h2]
    rfl
  rw [he]
  refine ⟨rfl, rfl, rfl, ?_, rfl, rfl, rfl⟩
  unfold getDocumentTypeV5
  cases m.getTypeM with
  | error e => simp
  | ok t =>
    by_cases ht1 : t = 1
    · simp [ht1]
    · by_cases ht2 : t = 2
      · simp [ht1, ht2]
      · by_cases ht3 : t = 3
        · simp [ht1, ht2, ht3]
        · simp [ht1, ht2, ht3]

/-- A session model with an open empty document. -/
def emptyModelV5 : ModelV5 := { demoModelV5 with features := [] }

/-- Concrete instance of C9 on the empty document model. -/
theorem c9_empty_document_witness :
    emptyModelV5.firstRaises = false ∧ emptyModelV5.features = [] ∧
    ((extractFeatureTreeV5 emptyModelV5).creationSequence = [] ∧
     (extractFeatureTreeV5 emptyModelV5).featureRelationships = [] ∧
     (extractFeatureTreeV5 emptyModelV5).sketchData = [] ∧
     (extractFeatureTreeV5 emptyModelV5).documentType ∈
       ["part", "assembly", "drawing", "unknown"] ∧
     (extractFeatureTreeV5 emptyModelV5).referenceGeometry =
       extractReferenceGeometryV5 emptyModelV5 ∧
     (extractFeatureTreeV5 emptyModelV5).materialProperties =
       extractMaterialInfoV5 emptyModelV5 ∧
     (extractFeatureTreeV5 emptyModelV5).configurations =
       extractConfigurationsV5 emptyModelV5) :=
  ⟨rfl, rfl, c9_empty_document emptyModelV5 rfl rfl⟩

/-- The faulting third feature: its GetTypeName raises, its Name works. -/
def c1BadFeature : FeatureV5 :=
  { plainFeatureV5 "F3" with typeNameM := Except.error () }

/-- A ten-feature session whose third feature faults during extraction. -/
def c1CexModel : ModelV5 :=
  { demoModelV5 with
    features := [plainFeatureV5 "F1", plainFeatureV5 "F2", c1BadFeature,
                 plainFeatureV5 "F4", plainFeatureV5 "F5", plainFeatureV5 "F6",
                 plainFeatureV5 "F7", plainFeatureV5 "F8", plainFeatureV5 "F9",
                 plainFeatureV5 "F10"] }

/-- C1 counterexample: in extract_feature_tree of FMDT_v5.py a document of 10
features where extraction of feature 3 throws yields only 9 entries - the
faulting feature is dropped with no error marker, not recorded; the walk does
continue with its siblings. -/
theorem c1_cex :
    c1CexModel.features.length = 10 ∧
    (extractFeatureTreeV5 c1CexModel).creationSequence.map RecordV5.name =
      ["F1", "F2", "F4", "F5", "F6", "F7", "F8", "F9", "F10"] ∧
    (extractFeatureTreeV5 c1CexModel).creationSequence.length = 9 := by
  refine ⟨rfl, by decide, by decide⟩

/-- A segment whose accessor set may be partially unavailable (absent members)
but raises no hard, non-AttributeError fault: its base GetType call returns
and no getattr probe explodes. -/
def segAccessible (s : SegmentV5) : Bool :=
  exOk s.getTypeM && notErr s.getStartPoint2 && notErr s.getEndPoint2 &&
    notErr s.getCenterPoint2 && notErr s.getRadius &&
    notErr s.constructionGeometry

/-- The value of a member under getattr with a default, assuming no hard
fault. -/
def mvalG {α : Type} (m : Member α) (d : α) : α :=
  match m with
  | Member.val v => v
  | _ => d

/-- The record an accessible segment contributes: its type plus exactly the
fields its accessors supply, None-valued (unavailable) fields filtered out. -/
def okRecord (s : SegmentV5) : List (String × PyVal) :=
  ([("type", match s.getTypeM with | Except.ok v => v | _ => PyVal.none),
    ("start_point", mvalG s.getStartPoint2 PyVal.none),
    ("end_point", mvalG s.getEndPoint2 PyVal.none),
    ("center_point", mvalG s.getCenterPoint2 PyVal.none),
    ("radius", mvalG s.getRadius PyVal.none),
    ("construction", mvalG s.constructionGeometry (PyVal.bool false))]).filter
    (fun kv => !(isNoneV kv.2))

theorem getattrD_of_notErr {α : Type} (m : Member α) (d : α)
    (h : notErr m = true) : getattrD m d = Except.ok (mvalG m d) := by
  cases m with
  | absent => rfl
  | err => simp [notErr] at h
  | val a => rfl

theorem entityRecord_of_accessible (s : SegmentV5)
    (h : segAccessible s = true) : entityRecord s = Except.ok (okRecord s) := by
  unfold segAccessible at h
  simp only [Bool.and_eq_true] at h
  obtain ⟨⟨⟨⟨⟨h1, h2⟩, h3⟩, h4⟩, h5⟩, h6⟩ := h
  obtain ⟨ty, hty⟩ : ∃ v, s.getTypeM = Except.ok v := by
    cases hg : s.getTypeM with
    | error e => rw [hg] at h1; simp [exOk] at h1
    | ok v => exact ⟨v, rfl⟩
  unfold entityRecord okRecord
  rw [hty, getattrD_of_notErr _ _ h2, getattrD_of_notErr _ _ h3,
      getattrD_of_notErr _ _ h4, getattrD_of_notErr _ _ h5,
      getattrD_of_notErr _ _ h6]
  rfl

theorem entitiesLoop_map (segs : List SegmentV5)
    (h : ∀ s ∈ segs, segAccessible s = true) :
    entitiesLoop segs = segs.map okRecord := by
  induction segs with
  | nil => simp [entitiesLoop]
  | cons s ss ih =>
    have hs := h s (List.mem_cons_self s ss)
    have hss := ih (fun u hu => h u (List.mem_cons_of_mem s hu))
    rw [entitiesLoop, entityRecord_of_accessible s hs]
    simp [hss]

/-- C7: for a sketch whose segments raise no hard fault (members may be absent
for the concrete segment type, the case getattr guards), the entity list of
_extract_sketch_entities (FMDT_v5.py lines 184-202, FMDT_lite.py lines
153-171) holds exactly one record per native segment, position for position,
and each record carries exactly the fields the accessors can supply: an
absent accessor (radius shown as the representative) is omitted from the
record while a supplied non-None value appears in it; the segment itself is
never dropped. -/
theorem c7_sketch_entities (segs : List SegmentV5)
    (h : ∀ s ∈ segs, segAccessible s = true) :
    extractSketchEntitiesV5 (Except.ok (some segs)) = segs.map okRecord ∧
    (∀ s : SegmentV5,
      (s.getRadius = Member.absent → ∀ v, ("radius", v) ∉ okRecord s) ∧
      (∀ v, s.getRadius = Member.val v → isNoneV v = false →
        ("radius", v) ∈ okRecord s)) := by
  constructor
  · unfold extractSketchEntitiesV5
    exact entitiesLoop_map segs h
  · intro s
    constructor
    · intro habs v hv
      simp only [okRecord, habs, mvalG, List.mem_filter, List.mem_cons,
        List.mem_singleton, Prod.mk.injEq] at hv
      rcases hv with ⟨hv, hp⟩
      rcases hv with ⟨hk, _⟩ | ⟨hk, _⟩ | ⟨hk, _⟩ | ⟨hk, _⟩ | ⟨hk, hvv⟩ | hv
      · exact absurd hk (by decide)
      · exact absurd hk (by decide)
      · exact absurd hk (by decide)
      · exact absurd hk (by decide)
      · rw [hvv] at hp; simp [isNoneV] at hp
      · rcases hv with ⟨hk, _⟩ | hv
        · exact absurd hk (by decide)
        · simp at hv
    · intro v hval hnone
      simp only [okRecord, hval, mvalG, List.mem_filter, List.mem_cons,
        List.mem_singleton, Prod.mk.injEq]
      constructor
      · right; right; right; right; left; trivial
      · simp [hnone]

/-- A line-like segment: start and end points available, no center point and
no radius (absent members), construction flag available. -/
def demoLineSegment : SegmentV5 :=
  { getTypeM := Except.ok (PyVal.num 0),
    getStartPoint2 := Member.val (PyVal.list [PyVal.num 0, PyVal.num 0]),
    getEndPoint2 := Member.val (PyVal.list [PyVal.num 1, PyVal.num 0]),
    getCenterPoint2 := Member.absent, getRadius := Member.absent,
    constructionGeometry := Member.val (PyVal.bool false) }

/-- A circle-like segment: center and radius available, no endpoints. -/
def demoCircleSegment : SegmentV5 :=
  { getTypeM := Except.ok (PyVal.num 3),
    getStartPoint2 := Member.absent, getEndPoint2 := Member.absent,
    getCenterPoint2 := Member.val (PyVal.list [PyVal.num 2, PyVal.num 2]),
    getRadius := Member.val (PyVal.num 5),
    constructionGeometry := Member.val (PyVal.bool false) }

/-- Concrete instance of C7 on a two-segment sketch. -/
theorem c7_sketch_entities_witness :
    (∀ s ∈ [demoLineSegment, demoCircleSegment], segAccessible s = true) ∧
    (extractSketchEntitiesV5 (Except.ok (some [demoLineSegment,
        demoCircleSegment])) =
      [demoLineSegment, demoCircleSegment].map okRecord ∧
     (∀ s : SegmentV5,
       (s.getRadius = Member.absent → ∀ v, ("radius", v) ∉ okRecord s) ∧
       (∀ v, s.getRadius = Member.val v → isNoneV v = false →
         ("radius", v) ∈ okRecord s))) := by
  refine ⟨by decide, c7_sketch_entities [demoLineSegment, demoCircleSegment]
    (by decide)⟩

/-! ## The FMDT_v3.py traverser

SolidWorksTreeTraverser.traverse_feature_tree appends one record per feature
unconditionally: _analyze_feature_comprehensive pre-initializes the record
with empty fields, fills what its accessors yield, and on any fault its except
clause stores an error marker in the record and still returns it. -/

/-- One feature of the v3 chain.  Name, GetTypeName2 and IsSuppressed2 are the
unguarded accessors of the dict; GetParameterCount feeds
_get_feature_parameters, whose except clause reads the then-unbound
param_count local and so re-raises (NameError) exactly when the call raised,
bubbling into the error marker.  The remaining helpers of
_analyze_feature_comprehensive catch everything internally. -/
inductive FeatureV3 where
  | mk (nameM typeName2M : Except Unit String) (suppressed2M : Except Unit Bool)
       (paramCountM : Except Unit Nat) (subs : List FeatureV3)

/-- Name accessor result of a v3 feature. -/
def FeatureV3.nameM : FeatureV3 → Except Unit String
  | FeatureV3.mk n _ _ _ _ => n

/-- GetTypeName2 accessor result of a v3 feature. -/
def FeatureV3.typeName2M : FeatureV3 → Except Unit String
  | FeatureV3.mk _ t _ _ _ => t

/-- IsSuppressed2 accessor result of a v3 feature. -/
def FeatureV3.suppressed2M : FeatureV3 → Except Unit Bool
  | FeatureV3.mk _ _ s _ _ => s

/-- GetParameterCount accessor result of a v3 feature. -/
def FeatureV3.paramCountM : FeatureV3 → Except Unit Nat
  | FeatureV3.mk _ _ _ p _ => p

/-- GetFirstSubFeature/GetNextSubFeature chain of a v3 feature. -/
def FeatureV3.subs : FeatureV3 → List FeatureV3
  | FeatureV3.mk _ _ _ _ s => s

/-- The record _analyze_feature_comprehensive builds: the pre-initialized
name/type/state fields plus the error marker its except clause adds. -/
structure RecordV3 where
  name : String
  ftype : String
  state : String
  error : Bool

/-- The ACTIVE/SUPPRESSED state string. -/
def stateStr (s : Bool) : String := if s then "SUPPRESSED" else "ACTIVE"

/-- _analyze_feature_comprehensive (FMDT_v3.py, lines 165-212): fields filled
in accessor order, kept as far as the first fault, which sets the error
marker; the record is always returned. -/
def analyzeV3 (f : FeatureV3) : RecordV3 :=
  match f.nameM with
  | Except.error _ => { name := "", ftype := "", state := "", error := true }
  | Except.ok n =>
    match f.typeName2M with
    | Except.error _ => { name := n, ftype := "", state := "", error := true }
    | Except.ok t =>
      match f.suppressed2M with
      | Except.error _ => { name := n, ftype := t, state := "", error := true }
      | Except.ok s =>
        match f.paramCountM with
        | Except.error _ =>
          { name := n, ftype := t, state := stateStr s, error := true }
        | Except.ok _ =>
          { name := n, ftype := t, state := stateStr s, error := false }

/-- The traversal of traverse_feature_tree and _traverse_sub_features
(FMDT_v3.py, lines 65-106 and 147-163): every feature contributes its record
to the flat feature_data list, sub-features recursively in between. -/
def traverseV3 : List FeatureV3 → List RecordV3
  | [] => []
  | FeatureV3.mk n t s p subs :: fs =>
    (analyzeV3 (FeatureV3.mk n t s p subs) :: traverseV3 subs) ++ traverseV3 fs

/-- Whether all four unguarded accessors of the v3 analysis succeed. -/
def analysisOkV3 (f : FeatureV3) : Bool :=
  exOk f.nameM && exOk f.typeName2M && exOk f.suppressed2M && exOk f.paramCountM

theorem traverseV3_flat (fs : List FeatureV3)
    (h : ∀ f ∈ fs, f.subs = []) : traverseV3 fs = fs.map analyzeV3 := by
  induction fs with
  | nil => simp [traverseV3]
  | cons f fs ih =>
    rcases f with ⟨n, t, s, p, subs⟩
    have hsub : subs = [] :=
      h (FeatureV3.mk n t s p subs) (List.mem_cons_self _ _)
    subst hsub
    rw [traverseV3]
    rw [traverseV3]
    simp only [List.nil_append, List.map_cons]
    rw [ih (fun g hg => h g (List.mem_cons_of_mem _ hg))]
    rfl

/-- C1 (amended): in FMDT_v3.py a feature whose extraction faults is still
recorded - the flat traversal holds exactly one record per feature in order,
the error marker is set exactly on the features with a faulting accessor, and
the name is retained whenever the Name accessor was obtainable; so ten
features with number three throwing still yield ten records with number three
flagged.  (In FMDT_v5.py and FMDT_v4.py, by contrast, the faulting feature is
dropped from the output, as the counterexample shows, though the walk still
continues with its sibling.) -/
theorem c1_amended (fs : List FeatureV3) (h : ∀ f ∈ fs, f.subs = []) :
    ((traverseV3 fs).length = fs.length ∧
     ∀ i : Nat, (traverseV3 fs)[i]? = (fs[i]?).map analyzeV3) ∧
    (∀ f : FeatureV3, (analyzeV3 f).error = !(analysisOkV3 f)) ∧
    (∀ (f : FeatureV3) (n : String), f.nameM = Except.ok n →
      (analyzeV3 f).name = n) := by
  refine ⟨⟨?_, ?_⟩, ?_, ?_⟩
  · rw [traverseV3_flat fs h]; simp
  · intro i
    rw [traverseV3_flat fs h]
    simp
  · intro f
    unfold analyzeV3 analysisOkV3
    cases hn : f.nameM with
    | error e => simp [exOk]
    | ok n =>
      cases ht : f.typeName2M with
      | error e => simp [exOk]
      | ok t =>
        cases hs : f.suppressed2M with
        | error e => simp [exOk]
        | ok s =>
          cases hp : f.paramCountM with
          | error e => simp [exOk]
          | ok c => simp [exOk]
  · intro f n hn
    unfold analyzeV3
    rw [hn]
    cases ht : f.typeName2M with
    | error e => rfl
    | ok t =>
      cases hs : f.suppressed2M with
      | error e => rfl
      | ok s =>
        cases hp : f.paramCountM with
        | error e => rfl
        | ok c => rfl

/-- A healthy v3 feature. -/
def plainFeatureV3 (nm : String) : FeatureV3 :=
  FeatureV3.mk (Except.ok nm) (Except.ok "ProfileFeature") (Except.ok false)
    (Except.ok 0) []

/-- A v3 feature whose GetTypeName2 raises. -/
def badFeatureV3 : FeatureV3 :=
  FeatureV3.mk (Except.ok "Bad") (Except.error ()) (Except.ok false)
    (Except.ok 0) []

/-- Concrete instance of the amended C1 statement on a three-feature chain
with a faulting middle feature. -/
theorem c1_amended_witness :
    (∀ f ∈ [plainFeatureV3 "A", badFeatureV3, plainFeatureV3 "C"],
      f.subs = []) ∧
    (((traverseV3 [plainFeatureV3 "A", badFeatureV3,
        plainFeatureV3 "C"]).length =
      ([plainFeatureV3 "A", badFeatureV3, plainFeatureV3 "C"] :
        List FeatureV3).length ∧
      ∀ i : Nat, (traverseV3 [plainFeatureV3 "A", badFeatureV3,
        plainFeatureV3 "C"])[i]? =
        (([plainFeatureV3 "A", badFeatureV3,
          plainFeatureV3 "C"] : List FeatureV3)[i]?).map analyzeV3) ∧
     (∀ f : FeatureV3, (analyzeV3 f).error = !(analysisOkV3 f)) ∧
     (∀ (f : FeatureV3) (n : String), f.nameM = Except.ok n →
       (analyzeV3 f).name = n)) := by
  refine ⟨?_, c1_amended _ ?_⟩
  · intro f hf
    simp only [List.mem_cons, List.not_mem_nil, or_false] at hf
    rcases hf with rfl | rfl | rfl <;> rfl
  · intro f hf
    simp only [List.mem_cons, List.not_mem_nil, or_false] at hf
    rcases hf with rfl | rfl | rfl <;> rfl

/-! ## The FMDT_v4.py attribute extractors

The v4 type-specific extractors fetch every member of their schema by direct
attribute or method access inside one try, so any single fault empties the
whole returned mapping; contrast _get_feature_definition of FMDT_v5.py, whose
getattr defaults isolate each absent member. -/

/-- The object returned by feature.GetDefinition() in FMDT_v4.py, carrying
every member the nine type-specific extractors read by direct access. -/
structure DefnV4 where
  bothDirections : Member PyVal
  getEndCondition : Member PyVal
  getDepth : Member PyVal
  getDraftAngle : Member PyVal
  reverseDirection : Member PyVal
  getRevolveAngle : Member PyVal
  getRadius : Member PyVal
  fullRound : Member PyVal
  getEdgeCount : Member PyVal
  getDistance : Member PyVal
  getAngle : Member PyVal
  typeA : Member PyVal
  getDiameter : Member PyVal
  countersink : Member PyVal
  counterbore : Member PyVal
  getTypeA : Member PyVal
  getPatternBodyCount : Member PyVal
  getSpacing : Member PyVal
  thickness : Member PyVal
  outward : Member PyVal
  extrudeFrom : Member PyVal
  flipMaterialSide : Member PyVal

/-- A definition object with no member available. -/
def allAbsentDefnV4 : DefnV4 :=
  { bothDirections := Member.absent, getEndCondition := Member.absent,
    getDepth := Member.absent, getDraftAngle := Member.absent,
    reverseDirection := Member.absent, getRevolveAngle := Member.absent,
    getRadius := Member.absent, fullRound := Member.absent,
    getEdgeCount := Member.absent, getDistance := Member.absent,
    getAngle := Member.absent, typeA := Member.absent,
    getDiameter := Member.absent, countersink := Member.absent,
    counterbore := Member.absent, getTypeA := Member.absent,
    getPatternBodyCount := Member.absent, getSpacing := Member.absent,
    thickness := Member.absent, outward := Member.absent,
    extrudeFrom := Member.absent, flipMaterialSide := Member.absent }

/-- _extract_extrude_data (FMDT_v4.py, lines 306-318): a missing definition
(None, so the first attribute access raises) or any faulting member lands in
the function-level except and yields the empty mapping. -/
def extractExtrudeDataV4 (dm : Except Unit (Option DefnV4)) :
    List (String × PyVal) :=
  match dm with
  | Except.error _ => []
  | Except.ok Option.none => []
  | Except.ok (some d) =>
    match (do
      let bd ← getDirect d.bothDirections
      let ec ← getDirect d.getEndCondition
      let dp ← getDirect d.getDepth
      let da ← getDirect d.getDraftAngle
      let rd ← getDirect d.reverseDirection
      pure [("direction", PyVal.str (if truthyV bd then "both" else "one")),
            ("end_condition", ec), ("depth", dp), ("draft_angle", da),
            ("reverse_direction", rd)]) with
    | Except.error _ => []
    | Except.ok kvs => kvs

/-- Whether the whole v4 extrude schema is accessible. -/
def extrudeAllOkV4 (d : DefnV4) : Bool :=
  exOk (getDirect d.bothDirections) && exOk (getDirect d.getEndCondition) &&
    exOk (getDirect d.getDepth) && exOk (getDirect d.getDraftAngle) &&
    exOk (getDirect d.reverseDirection)

/-- A definition on which only GetDepth (of the extrude schema) is
unsupported. -/
def c2CexDefn : DefnV4 :=
  { allAbsentDefnV4 with
    bothDirections := Member.val (PyVal.bool true),
    getEndCondition := Member.val (PyVal.num 1),
    getDepth := Member.absent,
    getDraftAngle := Member.val (PyVal.num 0),
    reverseDirection := Member.val (PyVal.bool false) }

/-- C2 counterexample: on a feature definition where exactly one accessor
(GetDepth) is unsupported while the others answer, _extract_extrude_data of
FMDT_v4.py returns the empty mapping - the remaining schema (direction,
end_condition, draft_angle, reverse_direction) is NOT extracted, contradicting
the claimed per-attribute isolation. -/
theorem c2_cex :
    extractExtrudeDataV4 (Except.ok (some c2CexDefn)) = [] ∧
    c2CexDefn.getDepth = Member.absent ∧
    getDirect c2CexDefn.bothDirections = Except.ok (PyVal.bool true) ∧
    getDirect c2CexDefn.getEndCondition = Except.ok (PyVal.num 1) ∧
    getDirect c2CexDefn.getDraftAngle = Except.ok (PyVal.num 0) ∧
    getDirect c2CexDefn.reverseDirection = Except.ok (PyVal.bool false) :=
  ⟨rfl, rfl, rfl, rfl, rfl, rfl⟩

/-- C2 (amended): the attribute extractors never raise and an entirely
inaccessible feature yields an empty mapping (shown for _extract_hole_data
and _get_feature_definition of FMDT_v5.py and _extract_extrude_data of
FMDT_v4.py); per-attribute isolation holds in the getattr-based
_get_feature_definition of FMDT_v5.py, where an absent depth member is
omitted while the other four schema entries are still returned, but in
_extract_extrude_data of FMDT_v4.py any fault in the schema empties the whole
mapping instead of omitting the one attribute. -/
theorem c2_amended :
    (∀ (v1 v2 v4 v5 : PyVal), isNoneV v1 = false → isNoneV v2 = false →
      isNoneV v4 = false → isNoneV v5 = false →
      getFeatureDefinitionV5 (Except.ok (some
        { endCondition := Member.val v1, direction := Member.val v2,
          depth := Member.absent, draftAngle := Member.val v4,
          reverseDirection := Member.val v5 })) =
        [("end_condition", v1), ("direction", v2), ("draft_angle", v4),
         ("reverse_direction", v5)]) ∧
    (∀ d : DefnV4, extrudeAllOkV4 d = false →
      extractExtrudeDataV4 (Except.ok (some d)) = []) ∧
    extractExtrudeDataV4 (Except.error ()) = [] ∧
    getFeatureDefinitionV5 (Except.error ()) = [] ∧
    extractHoleDataV5 (Except.error ()) = [] := by
  refine ⟨?_, ?_, rfl, rfl, rfl⟩
  · intro v1 v2 v4 v5 h1 h2 h4 h5
    simp [getFeatureDefinitionV5, featDefDict, getattrD, h1, h2,
      h4, h5, show isNoneV PyVal.none = true from rfl, bind, Except.bind,
      pure, Except.pure, List.filter]
  · intro d hd
    unfold extrudeAllOkV4 at hd
    unfold extractExtrudeDataV4
    cases hb : getDirect d.bothDirections with
    | error e => simp [hb, bind, Except.bind]
    | ok bd =>
      cases he : getDirect d.getEndCondition with
      | error e => simp [hb, he, bind, Except.bind]
      | ok ec =>
        cases hp : getDirect d.getDepth with
        | error e => simp [hb, he, hp, bind, Except.bind]
        | ok dp =>
          cases ha : getDirect d.getDraftAngle with
          | error e => simp [hb, he, hp, ha, bind, Except.bind]
          | ok da =>
            cases hr : getDirect d.reverseDirection with
            | error e =>
              simp [hb, he, hp, ha, hr, bind, Except.bind, Functor.map,
                Except.map]
            | ok rd =>
              exfalso
              rw [hb, he, hp, ha, hr] at hd
              simp [exOk] at hd

/-- Concrete instance of the amended C2 statement. -/
theorem c2_amended_witness :
    isNoneV (PyVal.num 1) = false ∧ isNoneV (PyVal.num 2) = false ∧
    isNoneV (PyVal.num 3) = false ∧ isNoneV (PyVal.bool false) = false ∧
    extrudeAllOkV4 c2CexDefn = false ∧
    (getFeatureDefinitionV5 (Except.ok (some
      { endCondition := Member.val (PyVal.num 1),
        direction := Member.val (PyVal.num 2), depth := Member.absent,
        draftAngle := Member.val (PyVal.num 3),
        reverseDirection := Member.val (PyVal.bool false) })) =
      [("end_condition", PyVal.num 1), ("direction", PyVal.num 2),
       ("draft_angle", PyVal.num 3),
       ("reverse_direction", PyVal.bool false)]) ∧
    extractExtrudeDataV4 (Except.ok (some c2CexDefn)) = [] := by
  refine ⟨rfl, rfl, rfl, rfl, rfl, ?_, ?_⟩
  · exact c2_amended.1 (PyVal.num 1) (PyVal.num 2) (PyVal.num 3)
      (PyVal.bool false) rfl rfl rfl rfl
  · exact c2_amended.2.1 c2CexDefn rfl

/-! ## The FMDT_v4.py tree extractor

SolidWorksTreeExtractor._extract_feature_data builds one record per feature
and recurses into the GetFirstSubFeature/GetNextSubFeature chain; its except
clause prints an f-string evaluating feature.Name, so a raising Name
propagates while any other fault returns None, and a fault inside a child
extraction is absorbed by the parent (which then returns None itself). -/

/-- All-or-nothing schema fetch shared by the v4 extractors: every member is
read directly inside one try. -/
def extractRevolveDataV4 (d : DefnV4) : Except Unit (List (String × PyVal)) := do
  let an ← getDirect d.getRevolveAngle
  let bd ← getDirect d.bothDirections
  let rd ← getDirect d.reverseDirection
  pure [("angle", an),
        ("direction", PyVal.str (if truthyV bd then "both" else "one")),
        ("reverse_direction", rd)]

/-- _extract_fillet_data (FMDT_v4.py, lines 332-342). -/
def extractFilletDataV4 (d : DefnV4) : Except Unit (List (String × PyVal)) := do
  let r ← getDirect d.getRadius
  let fr ← getDirect d.fullRound
  let ec ← getDirect d.getEdgeCount
  pure [("radius", r), ("full_round", fr), ("edge_count", ec)]

/-- _extract_chamfer_data (FMDT_v4.py, lines 344-354). -/
def extractChamferDataV4 (d : DefnV4) : Except Unit (List (String × PyVal)) := do
  let di ← getDirect d.getDistance
  let an ← getDirect d.getAngle
  let ty ← getDirect d.typeA
  pure [("distance", di), ("angle", an), ("type", ty)]

/-- _extract_hole_data (FMDT_v4.py, lines 356-368). -/
def extractHoleDataV4 (d : DefnV4) : Except Unit (List (String × PyVal)) := do
  let ty ← getDirect d.typeA
  let di ← getDirect d.getDiameter
  let dp ← getDirect d.getDepth
  let cs ← getDirect d.countersink
  let cb ← getDirect d.counterbore
  pure [("hole_type", ty), ("diameter", di), ("depth", dp),
        ("countersink", cs), ("counterbore", cb)]

/-- _extract_pattern_data (FMDT_v4.py, lines 370-380), with the hasattr
GetSpacing probe defaulting to 0 on an absent member. -/
def extractPatternDataV4 (d : DefnV4) : Except Unit (List (String × PyVal)) := do
  let ty ← getDirect d.getTypeA
  let ct ← getDirect d.getPatternBodyCount
  let sp ← getattrD d.getSpacing (PyVal.num 0)
  pure [("pattern_type", ty), ("instance_count", ct), ("spacing", sp)]

/-- _extract_mirror_data (FMDT_v4.py, lines 382-391). -/
def extractMirrorDataV4 (d : DefnV4) : Except Unit (List (String × PyVal)) := do
  let ct ← getDirect d.getPatternBodyCount
  pure [("mirror_about_plane", PyVal.bool true), ("feature_count", ct)]

/-- _extract_shell_data (FMDT_v4.py, lines 393-402). -/
def extractShellDataV4 (d : DefnV4) : Except Unit (List (String × PyVal)) := do
  let th ← getDirect d.thickness
  let ow ← getDirect d.outward
  pure [("thickness", th), ("outward", ow)]

/-- _extract_rib_data (FMDT_v4.py, lines 404-414). -/
def extractRibDataV4 (d : DefnV4) : Except Unit (List (String × PyVal)) := do
  let th ← getDirect d.thickness
  let ef ← getDirect d.extrudeFrom
  let fm ← getDirect d.flipMaterialSide
  pure [("thickness", th), ("extrude_from", ef), ("flip_material_side", fm)]

/-- The extrude schema of _extract_extrude_data as a fallible fetch (its
wrapper extractExtrudeDataV4 is the claim-facing entry point). -/
def extrudeSchemaV4 (d : DefnV4) : Except Unit (List (String × PyVal)) := do
  let bd ← getDirect d.bothDirections
  let ec ← getDirect d.getEndCondition
  let dp ← getDirect d.getDepth
  let da ← getDirect d.getDraftAngle
  let rd ← getDirect d.reverseDirection
  pure [("direction", PyVal.str (if truthyV bd then "both" else "one")),
        ("end_condition", ec), ("depth", dp), ("draft_angle", da),
        ("reverse_direction", rd)]

/-- Collapse a guarded v4 extractor call: None definition or any fault gives
the empty mapping. -/
def guardV4 (dm : Except Unit (Option DefnV4))
    (f : DefnV4 → Except Unit (List (String × PyVal))) : List (String × PyVal) :=
  match dm with
  | Except.error _ => []
  | Except.ok Option.none => []
  | Except.ok (some d) =>
    match f d with
    | Except.error _ => []
    | Except.ok kvs => kvs

/-- The type dispatch of _extract_feature_data (FMDT_v4.py, lines 178-198):
case-sensitive substring tests on GetTypeName2. -/
def typeDispatchV4 (dm : Except Unit (Option DefnV4)) (t : String) :
    List (String × PyVal) :=
  if hasSub t "Boss" || hasSub t "Cut" then guardV4 dm extrudeSchemaV4
  else if hasSub t "Revolve" then guardV4 dm extractRevolveDataV4
  else if hasSub t "Fillet" then guardV4 dm extractFilletDataV4
  else if hasSub t "Chamfer" then guardV4 dm extractChamferDataV4
  else if hasSub t "Hole" then guardV4 dm extractHoleDataV4
  else if hasSub t "Pattern" then guardV4 dm extractPatternDataV4
  else if hasSub t "Mirror" then guardV4 dm extractMirrorDataV4
  else if hasSub t "Shell" then guardV4 dm extractShellDataV4
  else if hasSub t "Rib" then guardV4 dm extractRibDataV4
  else []

/-- One feature of the v4 chain.  dimensionsOut and sketchInfoOut carry the
outputs of the internally guarded _extract_feature_dimensions and
_extract_sketch_info helpers (never inspected by a claim);
_extract_feature_parameters always returns the empty mapping in the source. -/
inductive FeatureV4 where
  | mk (nameM typeName2M : Except Unit String)
       (visibleM suppressedM : Except Unit Bool)
       (defnM : Except Unit (Option DefnV4))
       (dimensionsOut : List PyVal) (sketchInfoOut : Option PyVal)
       (subs : List FeatureV4)

/-- The nested record _extract_feature_data builds. -/
inductive RecordV4 where
  | mk (name ftype : String) (visible suppressed : Bool)
       (parameters : List (String × PyVal)) (dimensions : List PyVal)
       (sketchInfo : Option PyVal) (typeData : List (String × PyVal))
       (children : List RecordV4)

/-- Name of a v4 record. -/
def RecordV4.name : RecordV4 → String
  | RecordV4.mk n _ _ _ _ _ _ _ _ => n

/-- Children of a v4 record. -/
def RecordV4.children : RecordV4 → List RecordV4
  | RecordV4.mk _ _ _ _ _ _ _ _ cs => cs

mutual
/-- _extract_feature_data (FMDT_v4.py, lines 164-212): Except.error models the
Name re-raise inside the except handler, Except.ok Option.none the dropped
feature, and a fault bubbling out of a child is absorbed into the parent
returning None. -/
def extractFeatureDataV4 : FeatureV4 → Except Unit (Option RecordV4)
  | FeatureV4.mk nm tn vi su df dims sk subs =>
    match nm with
    | Except.error _ => Except.error ()
    | Except.ok n =>
      match tn, vi, su with
      | Except.ok t, Except.ok v, Except.ok s =>
        match extractChildrenV4 subs with
        | Except.error _ => Except.ok Option.none
        | Except.ok cs =>
          Except.ok (some (RecordV4.mk n t v s [] dims sk
            (typeDispatchV4 df t) cs))
      | _, _, _ => Except.ok Option.none

/-- The sub-feature loop of _extract_feature_data: child records append in
chain order, a None child is skipped, a child fault propagates. -/
def extractChildrenV4 : List FeatureV4 → Except Unit (List RecordV4)
  | [] => Except.ok []
  | f :: fs =>
    match extractFeatureDataV4 f with
    | Except.error e => Except.error e
    | Except.ok Option.none => extractChildrenV4 fs
    | Except.ok (some c) =>
      match extractChildrenV4 fs with
      | Except.error e => Except.error e
      | Except.ok cs => Except.ok (c :: cs)
end

/-- extract_feature_tree (FMDT_v4.py, lines 146-162): the top-level
FirstFeature/GetNextFeature loop, whose try/except stops the walk at a
propagating fault, keeping the features appended so far. -/
def extractFeatureTreeV4 : List FeatureV4 → List RecordV4
  | [] => []
  | f :: fs =>
    match extractFeatureDataV4 f with
    | Except.error _ => []
    | Except.ok Option.none => extractFeatureTreeV4 fs
    | Except.ok (some r) => r :: extractFeatureTreeV4 fs

/-- Nested name tree used to compare emitted and native ordering. -/
inductive NTree where
  | node (nm : String) (children : List NTree)

/-- The native name forest of a v4 feature chain, in
FirstFeature/GetNextFeature and GetFirstSubFeature/GetNextSubFeature order. -/
def featForestV4 : List FeatureV4 → List NTree
  | [] => []
  | FeatureV4.mk nm _ _ _ _ _ _ subs :: fs =>
    NTree.node (okStr nm) (featForestV4 subs) :: featForestV4 fs

/-- The name forest of the emitted records, in emission order. -/
def recForestV4 : List RecordV4 → List NTree
  | [] => []
  | RecordV4.mk n _ _ _ _ _ _ _ cs :: rs =>
    NTree.node n (recForestV4 cs) :: recForestV4 rs

/-- Whether no accessor of the record dict faults anywhere in the forest. -/
def noFaultV4 : List FeatureV4 → Bool
  | [] => true
  | FeatureV4.mk nm tn vi su _ _ _ subs :: fs =>
    exOk nm && exOk tn && exOk vi && exOk su && noFaultV4 subs && noFaultV4 fs

theorem v4_no_fault_aux : ∀ (n : Nat) (fs : List FeatureV4), sizeOf fs ≤ n →
    noFaultV4 fs = true →
    ∃ cs, extractChildrenV4 fs = Except.ok cs ∧
      extractFeatureTreeV4 fs = cs ∧ recForestV4 cs = featForestV4 fs := by
  intro n
  induction n with
  | zero =>
    intro fs hsz
    exfalso
    cases fs <;> simp_arith at hsz
  | succ n ih =>
    intro fs hsz hnf
    cases fs with
    | nil =>
      exact ⟨[], by simp [extractChildrenV4], by simp [extractFeatureTreeV4],
        by simp [recForestV4, featForestV4]⟩
    | cons f fs =>
      rcases f with ⟨nm, tn, vi, su, df, dims, sk, subs⟩
      rw [noFaultV4] at hnf
      simp only [Bool.and_eq_true] at hnf
      obtain ⟨⟨⟨⟨⟨h1, h2⟩, h3⟩, h4⟩, h5⟩, h6⟩ := hnf
      obtain ⟨nv, hnv⟩ : ∃ v, nm = Except.ok v := by
        cases nm with
        | error e => simp [exOk] at h1
        | ok v => exact ⟨v, rfl⟩
      obtain ⟨tv, htv⟩ : ∃ v, tn = Except.ok v := by
        cases tn with
        | error e => simp [exOk] at h2
        | ok v => exact ⟨v, rfl⟩
      obtain ⟨vv, hvv⟩ : ∃ v, vi = Except.ok v := by
        cases vi with
        | error e => simp [exOk] at h3
        | ok v => exact ⟨v, rfl⟩
      obtain ⟨sv, hsv⟩ : ∃ v, su = Except.ok v := by
        cases su with
        | error e => simp [exOk] at h4
        | ok v => exact ⟨v, rfl⟩
      subst hnv htv hvv hsv
      have hszsub : sizeOf subs ≤ n := by
        have hs1 : sizeOf (FeatureV4.mk (Except.ok nv) (Except.ok tv)
            (Except.ok vv) (Except.ok sv) df dims sk subs :: fs) =
            1 + sizeOf (FeatureV4.mk (Except.ok nv) (Except.ok tv)
              (Except.ok vv) (Except.ok sv) df dims sk subs) + sizeOf fs := by
          simp
        have hs2 : sizeOf subs < sizeOf (FeatureV4.mk (Except.ok nv)
            (Except.ok tv) (Except.ok vv) (Except.ok sv) df dims sk subs) := by
          simp
        omega
      have hsztail : sizeOf fs ≤ n := by
        have hs1 : sizeOf (FeatureV4.mk (Except.ok nv) (Except.ok tv)
            (Except.ok vv) (Except.ok sv) df dims sk subs :: fs) =
            1 + sizeOf (FeatureV4.mk (Except.ok nv) (Except.ok tv)
              (Except.ok vv) (Except.ok sv) df dims sk subs) + sizeOf fs := by
          simp
        have hs2 : 0 < sizeOf (FeatureV4.mk (Except.ok nv) (Except.ok tv)
            (Except.ok vv) (Except.ok sv) df dims sk subs) := by
          simp
        omega
      obtain ⟨csSub, hcsSub, _, hforSub⟩ := ih subs hszsub h5
      obtain ⟨csTail, hcsTail, htreeTail, hforTail⟩ := ih fs hsztail h6
      have hx : extractFeatureDataV4 (FeatureV4.mk (Except.ok nv)
          (Except.ok tv) (Except.ok vv) (Except.ok sv) df dims sk subs) =
          Except.ok (some (RecordV4.mk nv tv vv sv [] dims sk
            (typeDispatchV4 df tv) csSub)) := by
        simp only [extractFeatureDataV4, hcsSub]
      refine ⟨RecordV4.mk nv tv vv sv [] dims sk (typeDispatchV4 df tv) csSub
        :: csTail, ?_, ?_, ?_⟩
      · simp only [extractChildrenV4, hx, hcsTail]
      · simp only [extractFeatureTreeV4, hx, htreeTail]
      · simp only [recForestV4, featForestV4, hforSub, hforTail, okStr]

/-- C4: when no accessor faults, the emitted feature tree of
extract_feature_tree (FMDT_v4.py, lines 146-162) lists the session features
in FirstFeature/GetNextFeature order at the top level and, inside every
feature, its children in GetFirstSubFeature/GetNextSubFeature order: the name
forests of the emitted records and of the native chain coincide at every
nesting level. -/
theorem c4_native_order (fs : List FeatureV4) (h : noFaultV4 fs = true) :
    recForestV4 (extractFeatureTreeV4 fs) = featForestV4 fs := by
  obtain ⟨cs, _, h2, h3⟩ := v4_no_fault_aux (sizeOf fs) fs (Nat.le_refl _) h
  rw [h2, h3]

/-- A leaf v4 feature. -/
def leafFeatureV4 (nm : String) : FeatureV4 :=
  FeatureV4.mk (Except.ok nm) (Except.ok "RefPlane") (Except.ok true)
    (Except.ok false) (Except.ok Option.none) [] Option.none []

/-- A v4 feature with two sub-features. -/
def parentFeatureV4 : FeatureV4 :=
  FeatureV4.mk (Except.ok "Boss-Extrude1") (Except.ok "Boss")
    (Except.ok true) (Except.ok false) (Except.ok Option.none) [] Option.none
    [leafFeatureV4 "Sketch1", leafFeatureV4 "Sketch2"]

/-- Concrete instance of C4 on a nested two-level chain. -/
theorem c4_native_order_witness :
    noFaultV4 [parentFeatureV4, leafFeatureV4 "Plane1"] = true ∧
    recForestV4 (extractFeatureTreeV4 [parentFeatureV4,
      leafFeatureV4 "Plane1"]) =
      featForestV4 [parentFeatureV4, leafFeatureV4 "Plane1"] :=
  ⟨by simp [noFaultV4, parentFeatureV4, leafFeatureV4, exOk],
   c4_native_order [parentFeatureV4, leafFeatureV4 "Plane1"]
     (by simp [noFaultV4, parentFeatureV4, leafFeatureV4, exOk])⟩
